import Mathlib

/-!
Verification development for the proctoring live-stream subsystem.

Shallow embedding of the two WebRTC signaling state machines of the
repository:

* the viewer side, `useProctoringStreams` in
  `src/web-frontend/src/admin/hooks/useProctoringStreams.ts`, which keeps a
  per-session `StreamState` store, a per-session peer map, and a
  remote-socket-to-session map; and
* the publisher side, `useAICameraMonitor` in `src/unnamed/part_002`, which
  keeps a proctor-socket-to-peer-connection map and answers offer requests.

JavaScript objects keyed by strings are embedded as association lists;
`RTCPeerConnection` objects live in an arena indexed by a fresh natural
number so that teardown (nulling the event handlers and closing) is
observable.  React state updates are modelled as immediate.  Asynchronous
handlers are modelled atomically, with a parameter recording whether the
awaited negotiation steps succeed.
-/

namespace Proctoring

/-- Association-list lookup, the embedding of `obj[key]`. -/
def lookupA {κ α : Type} [DecidableEq κ] : List (κ × α) → κ → Option α
  | [], _ => none
  | (k1, v) :: rest, k => if k1 = k then some v else lookupA rest k

/-- Association-list insertion, the embedding of `obj[key] = v`. -/
def insertA {κ α : Type} [DecidableEq κ] : List (κ × α) → κ → α → List (κ × α)
  | [], k, v => [(k, v)]
  | (k1, v1) :: rest, k, v =>
      if k1 = k then (k, v) :: rest else (k1, v1) :: insertA rest k v

/-- Association-list deletion, the embedding of `delete obj[key]`. -/
def eraseA {κ α : Type} [DecidableEq κ] : List (κ × α) → κ → List (κ × α)
  | [], _ => []
  | (k1, v1) :: rest, k =>
      if k1 = k then eraseA rest k else (k1, v1) :: eraseA rest k

/-! ## Data model -/
/-- `LiveStreamStatus` from `useProctoringStreams.ts`. -/
inductive LiveStreamStatus : Type
  | idle
  | waiting
  | connecting
  | live
  | error
deriving DecidableEq, Repr

/-- A `MediaStream` handle: an object identity plus the number of
underlying tracks (`getTracks().length`). -/
structure MediaStream : Type where
  streamId : Nat
  trackCount : Nat
deriving DecidableEq, Repr

/-- The `StreamState` record of `useProctoringStreams.ts`. -/
structure StreamState : Type where
  status : LiveStreamStatus
  stream : Option MediaStream
  lastUpdated : Option Nat
  error : Option String
  remoteSocketId : Option String
deriving DecidableEq, Repr

/-- `ProctoringSession` (the fields this hook reads: `id`, `examId`,
`userId`, `status`). -/
structure ProctoringSession : Type where
  id : String
  examId : String
  userId : String
  status : String
deriving DecidableEq, Repr

/-- The handler/closed state of one `RTCPeerConnection` on the viewer
side: which event observers are attached, whether `close()` was called,
and the remote ICE candidates applied so far. -/
structure PCState : Type where
  closed : Bool
  ontrackAttached : Bool
  onIceAttached : Bool
  onConnAttached : Bool
  remoteCandidates : List String
deriving DecidableEq, Repr

/-- One entry of `peersRef.current`: `{ pc, remoteSocketId, examId }`,
with the `pc` object represented by its arena index. -/
structure PeerInfo : Type where
  pcId : Nat
  remoteSocketId : String
  examId : String
deriving DecidableEq, Repr

/-- An `RTCSessionDescriptionInit`: a `type` (`"offer"`/`"answer"`) and an
`sdp` body. -/
structure SessionDesc : Type where
  descType : String
  sdp : String
deriving DecidableEq, Repr

/-- Messages emitted on the signaling channel (`socket.emit`). -/
inductive OutMsg : Type
  | requestStreamMsg (studentIdToView : String)
  | answerMsg (targetSocketId : String)
  | offerMsg (targetSocketId : String)
  | iceCandidateMsg (targetSocketId : String)
deriving DecidableEq, Repr

/-- `RTCPeerConnection.connectionState` values. -/
inductive ConnState : Type
  | newConn
  | connecting
  | connected
  | disconnected
  | failed
  | closed
deriving DecidableEq, Repr

/-! ## Viewer side (`useProctoringStreams`) -/
/-- The mutable state of the viewer hook: the `streamStates` store, the
refs (`peersRef`, `remoteSessionMap`, `requestedSessionsRef`,
`sessionsRef`), the peer-connection arena, and the log of emitted
signaling messages.  `stoppedStreams` records the stream identities whose
tracks were stopped by `teardownPeer`. -/
structure ViewerState : Type where
  streamStates : List (String × StreamState)
  peers : List (String × PeerInfo)
  pcs : List (Nat × PCState)
  remoteSessionMap : List (String × String)
  requested : List String
  sessions : List ProctoringSession
  nextPcId : Nat
  emitted : List OutMsg
  stoppedStreams : List Nat
deriving DecidableEq, Repr

/-- The empty initial state of the hook. -/
def vinit : ViewerState where
  streamStates := []
  peers := []
  pcs := []
  remoteSessionMap := []
  requested := []
  sessions := []
  nextPcId := 0
  emitted := []
  stoppedStreams := []

/-- The `PCState` of a torn-down connection: all three observers nulled
and the transport closed (`teardownPeer` / `teardownPeerConnection`). -/
def detachedPC (cands : List String) : PCState where
  closed := true
  ontrackAttached := false
  onIceAttached := false
  onConnAttached := false
  remoteCandidates := cands

/-- `teardownPeer(sessionId)`: if a peer entry exists, null its handlers,
close it, delete the peer entry and (when the recorded remote socket id is
truthy) the remote-socket-to-session mapping; finally stop the tracks of
any stream currently stored for the session. -/
def teardownPeer (s : ViewerState) (sessionId : String) : ViewerState :=
  let s1 :=
    match lookupA s.peers sessionId with
    | some peerInfo =>
        { s with
          pcs := insertA s.pcs peerInfo.pcId
            (detachedPC (((lookupA s.pcs peerInfo.pcId).map
              (·.remoteCandidates)).getD []))
          peers := eraseA s.peers sessionId
          remoteSessionMap :=
            if peerInfo.remoteSocketId ≠ "" then
              eraseA s.remoteSessionMap peerInfo.remoteSocketId
            else s.remoteSessionMap }
    | none => s
  match (lookupA s1.streamStates sessionId).bind (·.stream) with
  | some ms => { s1 with stoppedStreams := ms.streamId :: s1.stoppedStreams }
  | none => s1

/-- `stopStream(sessionId, nextStatus, errorMessage)`: tear the peer down,
drop the "requested" marker, and overwrite the session's stream state with
the given status, a null stream handle, the previous timestamp, no remote
socket id, and the given error message. -/
def stopStream (s : ViewerState) (sessionId : String)
    (nextStatus : LiveStreamStatus) (errorMessage : Option String) :
    ViewerState :=
  let s1 := teardownPeer s sessionId
  let prev := lookupA s1.streamStates sessionId
  { s1 with
    requested := s1.requested.filter (fun x => x ≠ sessionId)
    streamStates := insertA s1.streamStates sessionId
      { status := nextStatus
        stream := none
        lastUpdated := prev.bind (·.lastUpdated)
        remoteSocketId := none
        error := errorMessage } }

/-- The guard of `requestStream`: skip when not forced and the current
state is `waiting`, `connecting` or `live`. -/
def requestStreamGuard (cs : Option StreamState) (force : Bool) : Bool :=
  !force &&
    (match cs with
     | some st =>
         st.status = LiveStreamStatus.waiting ||
         st.status = LiveStreamStatus.connecting ||
         st.status = LiveStreamStatus.live
     | none => false)

/-- Add to the `requestedSessionsRef` set. -/
def addRequested (l : List String) (sessionId : String) : List String :=
  if sessionId ∈ l then l else sessionId :: l

/-- `requestStream(sessionId, { force })`: no-op when the session is
unknown or the guard fires; otherwise record the "requested" marker, set
the state to `waiting` (keeping any previous stream handle and timestamp)
and emit `proctor_request_stream { studentIdToView }`. -/
def requestStream (s : ViewerState) (sessionId : String) (force : Bool) :
    ViewerState :=
  match s.sessions.find? (fun ses => ses.id = sessionId) with
  | none => s
  | some session =>
      let currentState := lookupA s.streamStates sessionId
      if requestStreamGuard currentState force then s
      else
        { s with
          requested := addRequested s.requested sessionId
          streamStates := insertA s.streamStates sessionId
            { status := LiveStreamStatus.waiting
              stream := currentState.bind (·.stream)
              lastUpdated := currentState.bind (·.lastUpdated)
              error := none
              remoteSocketId := none }
          emitted := s.emitted ++ [OutMsg.requestStreamMsg session.userId] }

/-- A freshly constructed viewer `RTCPeerConnection`: open, with all three
observers attached. -/
def freshViewerPC : PCState where
  closed := false
  ontrackAttached := true
  onIceAttached := true
  onConnAttached := true
  remoteCandidates := []

/-- The creation block of the `webrtc_offer_received` handler: tear down
any existing peer for the session, construct a fresh connection with its
observers, register it in the peer map and record the
remote-socket-to-session mapping. -/
def createViewerPeer (s : ViewerState) (sessionId senderSocketId examId :
    String) : ViewerState :=
  let s1 := teardownPeer s sessionId
  let pcId := s1.nextPcId
  { s1 with
    pcs := insertA s1.pcs pcId freshViewerPC
    nextPcId := pcId + 1
    peers := insertA s1.peers sessionId
      { pcId := pcId, remoteSocketId := senderSocketId, examId := examId }
    remoteSessionMap := insertA s1.remoteSessionMap senderSocketId sessionId }

/-- The `webrtc_offer_received` handler for the socket of `examId`: find
the session whose exam and student match; run the creation block
(`createViewerPeer`); then (modelling the awaited `setRemoteDescription` /
`createAnswer` / `setLocalDescription` sequence by `negotiationFailure`)
either emit the answer and mark the state `connecting`, or run the catch
branch `stopStream(sessionId, 'error', message)`. -/
def onOfferReceived (s : ViewerState) (examId : String)
    (senderSocketId studentId : String)
    (negotiationFailure : Option String) : ViewerState :=
  match s.sessions.find?
      (fun ses => ses.examId = examId && ses.userId = studentId) with
  | none => s
  | some targetSession =>
      let sessionId := targetSession.id
      let s2 := createViewerPeer s sessionId senderSocketId examId
      match negotiationFailure with
      | none =>
          let prev := lookupA s2.streamStates sessionId
          { s2 with
            emitted := s2.emitted ++ [OutMsg.answerMsg senderSocketId]
            streamStates := insertA s2.streamStates sessionId
              { status := LiveStreamStatus.connecting
                stream := prev.bind (·.stream)
                lastUpdated := prev.bind (·.lastUpdated)
                error := none
                remoteSocketId := some senderSocketId } }
      | some msg => stopStream s2 sessionId LiveStreamStatus.error (some msg)

/-- The `pc.ontrack` observer of the connection `pcId` created for
`sessionId`: fires only while that connection is still the session's
current peer (a torn-down connection has the observer nulled); ignores
events whose first stream is absent or has no tracks; otherwise stores the
stream handle and marks the state `live`. -/
def onTrackEvent (s : ViewerState) (sessionId : String) (pcId : Nat)
    (streams : List MediaStream) (now : Nat) : ViewerState :=
  match lookupA s.peers sessionId with
  | some info =>
      if info.pcId = pcId then
        match streams with
        | [] => s
        | remoteStream :: _ =>
            if remoteStream.trackCount = 0 then s
            else
              { s with
                streamStates := insertA s.streamStates sessionId
                  { status := LiveStreamStatus.live
                    stream := some remoteStream
                    lastUpdated := some now
                    error := none
                    remoteSocketId := some info.remoteSocketId } }
      else s
  | none => s

/-- The `pc.onconnectionstatechange` observer: `failed` and
`disconnected` stop the stream with an error message, `closed` stops it
back to `idle`, and `connected` promotes the state to `live` only when an
entry exists, is not already `live`, and already holds a stream handle. -/
def onConnStateChange (s : ViewerState) (sessionId : String) (pcId : Nat)
    (cs : ConnState) (now : Nat) : ViewerState :=
  match lookupA s.peers sessionId with
  | some info =>
      if info.pcId = pcId then
        match cs with
        | ConnState.failed =>
            stopStream s sessionId LiveStreamStatus.error
              (some "Không thể thiết lập kết nối video")
        | ConnState.disconnected =>
            stopStream s sessionId LiveStreamStatus.error
              (some "Kết nối video đã bị gián đoạn")
        | ConnState.closed =>
            stopStream s sessionId LiveStreamStatus.idle none
        | ConnState.connected =>
            match lookupA s.streamStates sessionId with
            | some currentState =>
                if currentState.status ≠ LiveStreamStatus.live ∧
                    currentState.stream ≠ none then
                  { s with
                    streamStates := insertA s.streamStates sessionId
                      { currentState with
                        status := LiveStreamStatus.live
                        lastUpdated := some now } }
                else s
            | none => s
        | _ => s
      else s
  | none => s

/-- The `pc.onicecandidate` observer: relay a non-null locally gathered
candidate to the captured remote socket. -/
def onLocalIceCandidate (s : ViewerState) (sessionId : String) (pcId : Nat)
    (candidate : Option String) : ViewerState :=
  match lookupA s.peers sessionId with
  | some info =>
      if info.pcId = pcId then
        match candidate with
        | some _ =>
            { s with
              emitted := s.emitted ++ [OutMsg.iceCandidateMsg info.remoteSocketId] }
        | none => s
      else s
  | none => s

/-- The `webrtc_ice_candidate_received` handler: route by the
remote-socket-to-session map and the peer map, dropping the event when
either lookup fails; otherwise apply the candidate to the peer connection
(`applyOk` models the awaited `addIceCandidate`, whose failure is caught
and ignored). -/
def onIceCandidateReceived (s : ViewerState) (senderSocketId : String)
    (candidate : Option String) (applyOk : Bool) : ViewerState :=
  match lookupA s.remoteSessionMap senderSocketId with
  | none => s
  | some sessionId =>
      match lookupA s.peers sessionId with
      | none => s
      | some info =>
          match candidate with
          | some c =>
              if applyOk then
                match lookupA s.pcs info.pcId with
                | some pcSt =>
                    { s with
                      pcs := insertA s.pcs info.pcId
                        { pcSt with remoteCandidates := pcSt.remoteCandidates ++ [c] } }
                | none => s
              else s
          | none => s

/-- Sessions of the given exam (`sessionsRef.current.filter(...)`). -/
def relatedSessions (s : ViewerState) (examId : String) :
    List ProctoringSession :=
  s.sessions.filter (fun ses => ses.examId = examId)

/-- The socket `disconnect` handler: stop every related session with the
"Mất kết nối tới máy chủ giám sát" (lost connection to the monitoring
server) error. -/
def onSocketDisconnect (s : ViewerState) (examId : String) : ViewerState :=
  (relatedSessions s examId).foldl
    (fun acc ses =>
      stopStream acc ses.id LiveStreamStatus.error
        (some "Mất kết nối tới máy chủ giám sát"))
    s

/-- The socket `reconnect_failed` handler. -/
def onReconnectFailed (s : ViewerState) (examId : String) : ViewerState :=
  (relatedSessions s examId).foldl
    (fun acc ses =>
      stopStream acc ses.id LiveStreamStatus.error
        (some "Không thể kết nối lại với máy chủ giám sát"))
    s

/-- The socket `user_left` handler: stop every session of this exam whose
user matches. -/
def onUserLeft (s : ViewerState) (examId userId : String) : ViewerState :=
  (s.sessions.filter
      (fun ses => ses.examId = examId && ses.userId = userId)).foldl
    (fun acc ses =>
      stopStream acc ses.id LiveStreamStatus.error
        (some "Thí sinh đã ngắt kết nối"))
    s

/-- The effect that seeds an `idle` entry for every known session that has
no entry yet (no-op when the session list is empty). -/
def ensureIdleEntries (s : ViewerState) : ViewerState :=
  if s.sessions = [] then s
  else
    { s with
      streamStates := s.sessions.foldl
        (fun m ses =>
          match lookupA m ses.id with
          | some _ => m
          | none => insertA m ses.id
              { status := LiveStreamStatus.idle
                stream := none
                lastUpdated := none
                error := none
                remoteSocketId := none })
        s.streamStates }

/-- A change of the `allSessions` prop: update `sessionsRef` and run the
idle-seeding effect. -/
def setSessions (s : ViewerState) (ss : List ProctoringSession) : ViewerState :=
  ensureIdleEntries { s with sessions := ss }

/-- The ids of the sessions whose status is `active`. -/
def activeIds (s : ViewerState) : List String :=
  (s.sessions.filter (fun ses => ses.status = "active")).map (·.id)

/-- The auto-request reconciliation effect: request a stream for every
active session whose state is absent or `idle`, then stop (to `idle`)
every non-active session that still holds a stream handle. -/
def reconcile (s : ViewerState) : ViewerState :=
  let s1 := s.sessions.foldl
    (fun acc ses =>
      if ses.status = "active" then
        match lookupA acc.streamStates ses.id with
        | none => requestStream acc ses.id false
        | some st =>
            if st.status = LiveStreamStatus.idle then
              requestStream acc ses.id false
            else acc
      else acc)
    s
  s1.streamStates.foldl
    (fun acc entry =>
      if entry.1 ∈ activeIds s ∨ entry.2.stream = none then acc
      else stopStream acc entry.1 LiveStreamStatus.idle none)
    s1

/-! ## Viewer events and step function -/
/-- The events the viewer hook reacts to: prop changes, the
reconciliation effect, inbound signaling events, peer-connection observer
callbacks, and the two functions the hook exports to the dashboard
(`requestStream(sessionId, options)` and `stopStream(sessionId, 'idle')`,
the call shapes used by the rendering layer). -/
inductive VEvent : Type
  | setSessionsEvt (ss : List ProctoringSession)
  | reconcileEvt
  | offerReceivedEvt (examId senderSocketId studentId : String)
      (negotiationFailure : Option String)
  | trackEvt (sessionId : String) (pcId : Nat) (streams : List MediaStream)
      (now : Nat)
  | connStateEvt (sessionId : String) (pcId : Nat) (cs : ConnState) (now : Nat)
  | localIceEvt (sessionId : String) (pcId : Nat) (candidate : Option String)
  | remoteIceEvt (senderSocketId : String) (candidate : Option String)
      (applyOk : Bool)
  | requestStreamEvt (sessionId : String) (force : Bool)
  | stopStreamEvt (sessionId : String)
  | disconnectEvt (examId : String)
  | reconnectFailedEvt (examId : String)
  | userLeftEvt (examId userId : String)

/-- One atomic reaction of the viewer hook to an event. -/
def vstep (s : ViewerState) : VEvent → ViewerState
  | VEvent.setSessionsEvt ss => setSessions s ss
  | VEvent.reconcileEvt => reconcile s
  | VEvent.offerReceivedEvt examId sender studentId negf =>
      onOfferReceived s examId sender studentId negf
  | VEvent.trackEvt sessionId pcId streams now =>
      onTrackEvent s sessionId pcId streams now
  | VEvent.connStateEvt sessionId pcId cs now =>
      onConnStateChange s sessionId pcId cs now
  | VEvent.localIceEvt sessionId pcId candidate =>
      onLocalIceCandidate s sessionId pcId candidate
  | VEvent.remoteIceEvt sender candidate applyOk =>
      onIceCandidateReceived s sender candidate applyOk
  | VEvent.requestStreamEvt sessionId force => requestStream s sessionId force
  | VEvent.stopStreamEvt sessionId =>
      stopStream s sessionId LiveStreamStatus.idle none
  | VEvent.disconnectEvt examId => onSocketDisconnect s examId
  | VEvent.reconnectFailedEvt examId => onReconnectFailed s examId
  | VEvent.userLeftEvt examId userId => onUserLeft s examId userId

/-- The viewer states reachable from the empty hook state. -/
inductive Reachable : ViewerState → Prop
  | init : Reachable vinit
  | step {s : ViewerState} (e : VEvent) : Reachable s → Reachable (vstep s e)

/-! ## Publisher side (`useAICameraMonitor`) -/
/-- The state of one publisher-side `RTCPeerConnection`: handlers, closed
flag, attached local tracks, both descriptions, and the applied remote
candidates. -/
structure PubPCState : Type where
  closed : Bool
  ontrackAttached : Bool
  onIceAttached : Bool
  onConnAttached : Bool
  localTracks : Nat
  localDescription : Option SessionDesc
  remoteDescription : Option SessionDesc
  remoteCandidates : List String
deriving DecidableEq, Repr

/-- Fallback used only to keep lookups total. -/
def defaultPubPC : PubPCState where
  closed := false
  ontrackAttached := false
  onIceAttached := false
  onConnAttached := false
  localTracks := 0
  localDescription := none
  remoteDescription := none
  remoteCandidates := []

/-- The publisher hook's mutable state: `peerConnectionsRef` (proctor
socket id to peer connection), the connection arena, the camera manager's
current stream, the socket's connected flag, emitted messages, and the
console-error log. -/
structure PublisherState : Type where
  peers : List (String × Nat)
  pcs : List (Nat × PubPCState)
  nextPcId : Nat
  socketConnected : Bool
  cameraStream : Option MediaStream
  emitted : List OutMsg
  logs : List String
deriving DecidableEq, Repr

/-- `teardownPeerConnection(proctorSocketId)`: when a peer exists, null
its handlers, close it, and delete the map entry. -/
def teardownPeerConnection (s : PublisherState) (proctorSocketId : String) :
    PublisherState :=
  match lookupA s.peers proctorSocketId with
  | none => s
  | some p =>
      let pcSt := (lookupA s.pcs p).getD defaultPubPC
      { s with
        pcs := insertA s.pcs p
          { pcSt with
            closed := true
            onIceAttached := false
            ontrackAttached := false
            onConnAttached := false }
        peers := eraseA s.peers proctorSocketId }

/-- `teardownAllPeers`: tear every entry down, then clear the map. -/
def teardownAllPeers (s : PublisherState) : PublisherState :=
  let s1 := (s.peers.map (·.1)).foldl
    (fun acc k => teardownPeerConnection acc k) s
  { s1 with peers := [] }

/-- The outcome of `cameraManager.start()` when the camera manager holds
no current stream. -/
inductive CaptureResult : Type
  | ok (ms : MediaStream)
  | failure (msg : String)
deriving DecidableEq, Repr

/-- `respondToProctorOfferRequest(proctorSocketId)`: require a connected
socket; tear down any existing peer for this proctor socket; acquire the
camera stream (`cameraManager.currentStream`, else `cameraManager.start()`
whose outcome is `startResult` — a failure is logged and aborts); then
create the transport, register it, attach the local tracks and the
observers, and (modelling the awaited `createOffer`/`setLocalDescription`
by `offerFailure`) either store the local description and emit the offer,
or log and tear the fresh connection down. -/
def respondToProctorOfferRequest (s : PublisherState)
    (proctorSocketId : String) (startResult : CaptureResult)
    (offer : SessionDesc) (offerFailure : Option String) : PublisherState :=
  if !s.socketConnected then s
  else
    let s1 :=
      match lookupA s.peers proctorSocketId with
      | some _ => teardownPeerConnection s proctorSocketId
      | none => s
    match s1.cameraStream, startResult with
    | none, CaptureResult.failure _ =>
        { s1 with
          logs := s1.logs ++
            ["Không thể khởi tạo camera để stream cho giám thị"] }
    | none, CaptureResult.ok ms => respondWithStream s1 proctorSocketId ms offer offerFailure true
    | some ms, _ => respondWithStream s1 proctorSocketId ms offer offerFailure false
where
  /-- The part of the handler from `new RTCPeerConnection` on, with the
  acquired stream in hand; `fresh` records whether `cameraManager.start()`
  (which updates `currentStream`) supplied it. -/
  respondWithStream (s1 : PublisherState) (proctorSocketId : String)
      (ms : MediaStream) (offer : SessionDesc)
      (offerFailure : Option String) (fresh : Bool) : PublisherState :=
    let s1 := if fresh then { s1 with cameraStream := some ms } else s1
    let pcId := s1.nextPcId
    let s2 :=
      { s1 with
        nextPcId := pcId + 1
        pcs := insertA s1.pcs pcId
          { closed := false
            ontrackAttached := false
            onIceAttached := true
            onConnAttached := true
            localTracks := ms.trackCount
            localDescription := none
            remoteDescription := none
            remoteCandidates := [] }
        peers := insertA s1.peers proctorSocketId pcId }
    match offerFailure with
    | none =>
        let pcSt := (lookupA s2.pcs pcId).getD defaultPubPC
        { s2 with
          pcs := insertA s2.pcs pcId { pcSt with localDescription := some offer }
          emitted := s2.emitted ++ [OutMsg.offerMsg proctorSocketId] }
    | some _ =>
        teardownPeerConnection
          { s2 with
            logs := s2.logs ++ ["Lỗi khi tạo WebRTC offer cho giám thị"] }
          proctorSocketId

/-- The `webrtc_offer_request` handler: drop events without a proctor
socket id, drop events whose (truthy) session filter names a different
student, then respond. -/
def handleOfferRequest (s : PublisherState)
    (proctorSocketId studentIdToView : Option String) (myStudentId : String)
    (startResult : CaptureResult) (offer : SessionDesc)
    (offerFailure : Option String) : PublisherState :=
  match proctorSocketId with
  | none => s
  | some psid =>
      match studentIdToView with
      | some sv =>
          if sv ≠ "" ∧ sv ≠ myStudentId then s
          else respondToProctorOfferRequest s psid startResult offer offerFailure
      | none => respondToProctorOfferRequest s psid startResult offer offerFailure

/-- The `webrtc_answer_received` handler: look the peer up by the sender
socket; apply the answer as remote description only when none is set yet
or its type differs (`applyFailure` models `setRemoteDescription`
throwing, whose catch tears the connection down). -/
def handleAnswerReceived (s : PublisherState) (answer : Option SessionDesc)
    (senderSocketId : String) (applyFailure : Bool) : PublisherState :=
  match lookupA s.peers senderSocketId with
  | none => s
  | some p =>
      match answer with
      | none => s
      | some ans =>
          let pcSt := (lookupA s.pcs p).getD defaultPubPC
          if (match pcSt.remoteDescription with
              | none => true
              | some rd => rd.descType ≠ ans.descType) then
            if applyFailure then
              teardownPeerConnection
                { s with
                  logs := s.logs ++ ["Không thể thiết lập remote description"] }
                senderSocketId
            else
              { s with pcs := insertA s.pcs p { pcSt with remoteDescription := some ans } }
          else s

/-- The publisher's `webrtc_ice_candidate_received` handler: drop when no
peer is mapped to the sender, skip null candidates, else apply (failures
are caught and logged). -/
def pubIceCandidateReceived (s : PublisherState) (candidate : Option String)
    (senderSocketId : String) (applyOk : Bool) : PublisherState :=
  match lookupA s.peers senderSocketId with
  | none => s
  | some p =>
      match candidate with
      | none => s
      | some c =>
          if applyOk then
            let pcSt := (lookupA s.pcs p).getD defaultPubPC
            { s with
              pcs := insertA s.pcs p
                { pcSt with remoteCandidates := pcSt.remoteCandidates ++ [c] } }
          else { s with logs := s.logs ++ ["Không thể thêm ICE candidate"] }

/-- The publisher's socket `disconnect` handler. -/
def pubSocketDisconnect (s : PublisherState) : PublisherState :=
  teardownAllPeers s

/-! ## The idle/error cleanliness invariant (claim C10) -/
/-- An entry is clean when `idle`/`error` status forces a null stream
handle and no remote socket id. -/
def cleanEntry (st : StreamState) : Prop :=
  (st.status = LiveStreamStatus.idle ∨ st.status = LiveStreamStatus.error) →
    st.stream = none ∧ st.remoteSocketId = none

def cleanMap (m : List (String × StreamState)) : Prop :=
  ∀ sid st, lookupA m sid = some st → cleanEntry st

/-- The invariant of claim C10 over a viewer state. -/
def idleErrorClean (s : ViewerState) : Prop :=
  cleanMap s.streamStates

/-! ## Transitions into the `live` status (claim C2) -/
/-- The session's stored status reads `live`. -/
def liveAt (s : ViewerState) (sid : String) : Prop :=
  (lookupA s.streamStates sid).map (·.status) = some LiveStreamStatus.live

/-- The connection at arena index `p` is closed with all observers
detached. -/
def pcDetachedAt (pcs : List (Nat × PCState)) (p : Nat) : Prop :=
  (lookupA pcs p).map
      (fun st => (st.closed, st.ontrackAttached, st.onIceAttached,
        st.onConnAttached)) =
    some (true, false, false, false)

/-- Publisher analogue of `pcDetachedAt`. -/
def pubPCDetachedAt (pcs : List (Nat × PubPCState)) (p : Nat) : Prop :=
  (lookupA pcs p).map
      (fun st => (st.closed, st.ontrackAttached, st.onIceAttached,
        st.onConnAttached)) =
    some (true, false, false, false)

/-- The stream entry for `sid` is an `error` entry carrying `msg`, with no
stream handle and no remote socket id, and no peer entry remains. -/
def stoppedAs (s : ViewerState) (sid : String) (msg : String) : Prop :=
  ((lookupA s.streamStates sid).map
      (fun st => (st.status, st.stream, st.error, st.remoteSocketId))) =
    some (LiveStreamStatus.error, none, some msg, none) ∧
  lookupA s.peers sid = none

/-- A concrete viewer state with one connecting session and a current
peer connection. -/
def c3State : ViewerState :=
  { vinit with
    sessions := [⟨"s1", "e1", "u1", "active"⟩]
    streamStates := [("s1",
      { status := LiveStreamStatus.connecting
        stream := none
        lastUpdated := some 5
        error := none
        remoteSocketId := some "r1" })]
    peers := [("s1", ⟨0, "r1", "e1"⟩)]
    pcs := [(0, ⟨false, true, true, true, []⟩)]
    remoteSessionMap := [("r1", "s1")]
    nextPcId := 1 }

/-- A concrete viewer state with one known idle session. -/
def idleState : ViewerState :=
  { vinit with
    sessions := [⟨"s1", "e1", "u1", "active"⟩]
    streamStates := [("s1",
      { status := LiveStreamStatus.idle
        stream := none
        lastUpdated := none
        error := none
        remoteSocketId := none })] }

/-- A live stream-state entry used to build concrete states. -/
def liveEntry (msid : Nat) (r : String) : StreamState where
  status := LiveStreamStatus.live
  stream := some ⟨msid, 2⟩
  lastUpdated := some 1
  error := none
  remoteSocketId := some r

/-- A concrete viewer state with three live sessions in exam `e1`. -/
def c7State : ViewerState :=
  { vinit with
    sessions := [⟨"s1", "e1", "u1", "active"⟩, ⟨"s2", "e1", "u2", "active"⟩,
      ⟨"s3", "e1", "u3", "active"⟩]
    streamStates := [("s1", liveEntry 1 "r1"), ("s2", liveEntry 2 "r2"),
      ("s3", liveEntry 3 "r3")]
    peers := [("s1", ⟨0, "r1", "e1"⟩), ("s2", ⟨1, "r2", "e1"⟩),
      ("s3", ⟨2, "r3", "e1"⟩)]
    pcs := [(0, ⟨false, true, true, true, []⟩),
      (1, ⟨false, true, true, true, []⟩), (2, ⟨false, true, true, true, []⟩)]
    remoteSessionMap := [("r1", "s1"), ("r2", "s2"), ("r3", "s3")]
    nextPcId := 3 }

/-- A concrete publisher state with one open peer connection whose remote
description is already set to an answer. -/
def pubState1 : PublisherState where
  peers := [("pr1", 0)]
  pcs := [(0,
    { closed := false
      ontrackAttached := false
      onIceAttached := true
      onConnAttached := true
      localTracks := 2
      localDescription := some ⟨"offer", "sdp-o"⟩
      remoteDescription := some ⟨"answer", "sdp-a"⟩
      remoteCandidates := [] })]
  nextPcId := 1
  socketConnected := true
  cameraStream := some ⟨5, 2⟩
  emitted := []
  logs := []

/-- A concrete publisher state with no camera stream and one stale peer. -/
def pubState2 : PublisherState where
  peers := [("pr1", 0)]
  pcs := [(0, defaultPubPC)]
  nextPcId := 1
  socketConnected := true
  cameraStream := none
  emitted := []
  logs := []

/-! ## Claim C2 -/
/-- The viewer state after the session list arrives and a first offer for
`s1` is answered: `s1` is `connecting` with no stream handle yet. -/
def cexMid : ViewerState :=
  vstep (vstep vinit (VEvent.setSessionsEvt [⟨"s1", "e1", "u1", "active"⟩]))
    (VEvent.offerReceivedEvt "e1" "r1" "u1" none)

/-- Continuing from `cexMid`: a track arrives (`s1` goes `live` holding
the stream), then a second offer for the same session is answered — the
handler keeps the previously stored stream handle while setting the state
back to `connecting`. -/
def cexTrace1 : ViewerState :=
  vstep (vstep cexMid (VEvent.trackEvt "s1" 0 [⟨7, 2⟩] 10))
    (VEvent.offerReceivedEvt "e1" "r2" "u1" none)

instance liveAtDecidable (s : ViewerState) (sid : String) :
    Decidable (liveAt s sid) :=
  inferInstanceAs (Decidable
    ((lookupA s.streamStates sid).map (·.status) =
      some LiveStreamStatus.live))

theorem lookupA_insertA {κ α : Type} [DecidableEq κ]
    (m : List (κ × α)) (k k' : κ) (v : α) :
    lookupA (insertA m k v) k' = if k = k' then some v else lookupA m k' := by
  induction m with
  | nil => simp [insertA, lookupA]
  | cons hd tl ih =>
      obtain ⟨k1, v1⟩ := hd
      by_cases h1 : k1 = k
      · subst h1
        by_cases h2 : k1 = k' <;> simp [insertA, lookupA, h2]
      · by_cases h2 : k1 = k'
        · subst h2
          simp [insertA, lookupA, h1, Ne.symm h1]
        · simp [insertA, lookupA, h1, h2, ih]

theorem lookupA_insertA_self {κ α : Type} [DecidableEq κ]
    (m : List (κ × α)) (k : κ) (v : α) :
    lookupA (insertA m k v) k = some v := by
  simp [lookupA_insertA]

theorem lookupA_insertA_ne {κ α : Type} [DecidableEq κ]
    (m : List (κ × α)) (k k' : κ) (v : α) (h : k ≠ k') :
    lookupA (insertA m k v) k' = lookupA m k' := by
  simp [lookupA_insertA, h]

theorem lookupA_eraseA {κ α : Type} [DecidableEq κ]
    (m : List (κ × α)) (k k' : κ) :
    lookupA (eraseA m k) k' = if k = k' then none else lookupA m k' := by
  induction m with
  | nil => simp [eraseA, lookupA]
  | cons hd tl ih =>
      obtain ⟨k1, v1⟩ := hd
      by_cases h1 : k1 = k
      · subst h1
        have e1 : eraseA ((k1, v1) :: tl) k1 = eraseA tl k1 := by simp [eraseA]
        rw [e1, ih]
        by_cases h2 : k1 = k' <;> simp [lookupA, h2]
      · by_cases h2 : k1 = k'
        · subst h2
          simp [eraseA, lookupA, h1, Ne.symm h1, ih]
        · simp [eraseA, lookupA, h1, h2, ih]

theorem lookupA_eraseA_self {κ α : Type} [DecidableEq κ]
    (m : List (κ × α)) (k : κ) :
    lookupA (eraseA m k) k = none := by
  simp [lookupA_eraseA]

theorem lookupA_eraseA_ne {κ α : Type} [DecidableEq κ]
    (m : List (κ × α)) (k k' : κ) (h : k ≠ k') :
    lookupA (eraseA m k) k' = lookupA m k' := by
  simp [lookupA_eraseA, h]

/-! ## Structural lemmas about the viewer operations -/
theorem teardownPeer_streamStates (s : ViewerState) (sid : String) :
    (teardownPeer s sid).streamStates = s.streamStates := by
  unfold teardownPeer
  cases h : lookupA s.peers sid <;>
    cases h2 : (lookupA s.streamStates sid).bind (·.stream) <;>
    simp [h, h2]

theorem teardownPeer_sessions (s : ViewerState) (sid : String) :
    (teardownPeer s sid).sessions = s.sessions := by
  unfold teardownPeer
  cases h : lookupA s.peers sid <;>
    cases h2 : (lookupA s.streamStates sid).bind (·.stream) <;>
    simp [h, h2]

theorem teardownPeer_requested (s : ViewerState) (sid : String) :
    (teardownPeer s sid).requested = s.requested := by
  unfold teardownPeer
  cases h : lookupA s.peers sid <;>
    cases h2 : (lookupA s.streamStates sid).bind (·.stream) <;>
    simp [h, h2]

theorem teardownPeer_emitted (s : ViewerState) (sid : String) :
    (teardownPeer s sid).emitted = s.emitted := by
  unfold teardownPeer
  cases h : lookupA s.peers sid <;>
    cases h2 : (lookupA s.streamStates sid).bind (·.stream) <;>
    simp [h, h2]

theorem teardownPeer_nextPcId (s : ViewerState) (sid : String) :
    (teardownPeer s sid).nextPcId = s.nextPcId := by
  unfold teardownPeer
  cases h : lookupA s.peers sid <;>
    cases h2 : (lookupA s.streamStates sid).bind (·.stream) <;>
    simp [h, h2]

theorem teardownPeer_peers_self (s : ViewerState) (sid : String) :
    lookupA (teardownPeer s sid).peers sid = none ∨
    lookupA (teardownPeer s sid).peers sid = lookupA s.peers sid := by
  unfold teardownPeer
  cases h : lookupA s.peers sid <;>
    cases h2 : (lookupA s.streamStates sid).bind (·.stream) <;>
    simp [h, h2, lookupA_eraseA_self]

theorem teardownPeer_peers_none (s : ViewerState) (sid : String) :
    lookupA (teardownPeer s sid).peers sid = none ∨
    lookupA s.peers sid = none := by
  unfold teardownPeer
  cases h : lookupA s.peers sid <;>
    cases h2 : (lookupA s.streamStates sid).bind (·.stream) <;>
    simp [h, h2, lookupA_eraseA_self]

theorem stopStream_streamStates (s : ViewerState) (sid : String)
    (st : LiveStreamStatus) (msg : Option String) :
    (stopStream s sid st msg).streamStates =
      insertA s.streamStates sid
        { status := st
          stream := none
          lastUpdated := (lookupA s.streamStates sid).bind (·.lastUpdated)
          error := msg
          remoteSocketId := none } := by
  simp [stopStream, teardownPeer_streamStates]

theorem stopStream_lookup_self (s : ViewerState) (sid : String)
    (st : LiveStreamStatus) (msg : Option String) :
    lookupA (stopStream s sid st msg).streamStates sid =
      some
        { status := st
          stream := none
          lastUpdated := (lookupA s.streamStates sid).bind (·.lastUpdated)
          error := msg
          remoteSocketId := none } := by
  rw [stopStream_streamStates, lookupA_insertA_self]

theorem stopStream_lookup_ne (s : ViewerState) (sid sid' : String)
    (st : LiveStreamStatus) (msg : Option String) (h : sid ≠ sid') :
    lookupA (stopStream s sid st msg).streamStates sid' =
      lookupA s.streamStates sid' := by
  rw [stopStream_streamStates, lookupA_insertA_ne _ _ _ _ h]

theorem stopStream_peers_self (s : ViewerState) (sid : String)
    (st : LiveStreamStatus) (msg : Option String) :
    lookupA (stopStream s sid st msg).peers sid = none := by
  cases h : lookupA s.peers sid <;>
    cases h2 : (lookupA s.streamStates sid).bind (·.stream) <;>
    simp [stopStream, teardownPeer, h, h2, lookupA_eraseA_self]

theorem stopStream_peers_ne (s : ViewerState) (sid sid' : String)
    (st : LiveStreamStatus) (msg : Option String) (h : sid ≠ sid') :
    lookupA (stopStream s sid st msg).peers sid' = lookupA s.peers sid' := by
  cases h1 : lookupA s.peers sid <;>
    cases h2 : (lookupA s.streamStates sid).bind (·.stream) <;>
    simp [stopStream, teardownPeer, h1, h2, lookupA_eraseA_ne _ _ _ h]

theorem stopStream_sessions (s : ViewerState) (sid : String)
    (st : LiveStreamStatus) (msg : Option String) :
    (stopStream s sid st msg).sessions = s.sessions := by
  simp [stopStream, teardownPeer_sessions]

theorem stopStream_emitted (s : ViewerState) (sid : String)
    (st : LiveStreamStatus) (msg : Option String) :
    (stopStream s sid st msg).emitted = s.emitted := by
  simp [stopStream, teardownPeer_emitted]

theorem foldl_preserves {α β : Type} (P : α → Prop) (f : α → β → α)
    (hf : ∀ a b, P a → P (f a b)) :
    ∀ (l : List β) (a : α), P a → P (l.foldl f a) := by
  intro l
  induction l with
  | nil => intro a ha; exact ha
  | cons hd tl ih => intro a ha; exact ih _ (hf _ _ ha)

/-! ## streamStates characterizations of the remaining operations -/
theorem createViewerPeer_streamStates (s : ViewerState)
    (sid sender examId : String) :
    (createViewerPeer s sid sender examId).streamStates = s.streamStates := by
  simp [createViewerPeer, teardownPeer_streamStates]

theorem createViewerPeer_pcs (s : ViewerState) (sid sender examId : String) :
    (createViewerPeer s sid sender examId).pcs =
      insertA (teardownPeer s sid).pcs (teardownPeer s sid).nextPcId
        freshViewerPC := rfl

theorem createViewerPeer_peers (s : ViewerState) (sid sender examId : String) :
    (createViewerPeer s sid sender examId).peers =
      insertA (teardownPeer s sid).peers sid
        ⟨(teardownPeer s sid).nextPcId, sender, examId⟩ := rfl

theorem createViewerPeer_rsm (s : ViewerState) (sid sender examId : String) :
    (createViewerPeer s sid sender examId).remoteSessionMap =
      insertA (teardownPeer s sid).remoteSessionMap sender sid := rfl

theorem createViewerPeer_nextPcId (s : ViewerState)
    (sid sender examId : String) :
    (createViewerPeer s sid sender examId).nextPcId =
      (teardownPeer s sid).nextPcId + 1 := rfl

theorem onOfferReceived_streamStates (s : ViewerState)
    (examId sender studentId : String) (negf : Option String) :
    (onOfferReceived s examId sender studentId negf).streamStates =
      match s.sessions.find?
          (fun ses => ses.examId = examId && ses.userId = studentId) with
      | none => s.streamStates
      | some ts =>
          match negf with
          | none =>
              insertA s.streamStates ts.id
                { status := LiveStreamStatus.connecting
                  stream := (lookupA s.streamStates ts.id).bind (·.stream)
                  lastUpdated := (lookupA s.streamStates ts.id).bind (·.lastUpdated)
                  error := none
                  remoteSocketId := some sender }
          | some msg =>
              insertA s.streamStates ts.id
                { status := LiveStreamStatus.error
                  stream := none
                  lastUpdated := (lookupA s.streamStates ts.id).bind (·.lastUpdated)
                  error := some msg
                  remoteSocketId := none } := by
  unfold onOfferReceived
  cases hf : s.sessions.find?
      (fun ses => ses.examId = examId && ses.userId = studentId) with
  | none => simp
  | some ts =>
      cases negf with
      | none => simp [createViewerPeer_streamStates]
      | some msg =>
          simp [stopStream_streamStates, createViewerPeer_streamStates]

theorem onIceCandidateReceived_streamStates (s : ViewerState)
    (sender : String) (candidate : Option String) (applyOk : Bool) :
    (onIceCandidateReceived s sender candidate applyOk).streamStates =
      s.streamStates := by
  unfold onIceCandidateReceived
  cases h1 : lookupA s.remoteSessionMap sender with
  | none => simp
  | some sid =>
      cases h2 : lookupA s.peers sid with
      | none => simp [h2]
      | some info =>
          cases candidate with
          | none => simp [h2]
          | some c =>
              cases applyOk with
              | false => simp [h2]
              | true =>
                  cases h3 : lookupA s.pcs info.pcId <;> simp [h2, h3]

theorem onLocalIceCandidate_streamStates (s : ViewerState)
    (sid : String) (pcId : Nat) (candidate : Option String) :
    (onLocalIceCandidate s sid pcId candidate).streamStates =
      s.streamStates := by
  unfold onLocalIceCandidate
  cases h1 : lookupA s.peers sid with
  | none => rfl
  | some info =>
      by_cases h2 : info.pcId = pcId <;> cases candidate <;> simp [h2]

theorem cleanMap_insert {m : List (String × StreamState)} {k : String}
    {v : StreamState} (hm : cleanMap m) (hv : cleanEntry v) :
    cleanMap (insertA m k v) := by
  intro sid st hl
  rw [lookupA_insertA] at hl
  split at hl
  · cases hl; exact hv
  · exact hm _ _ hl

theorem cleanEntry_of_status {st : StreamState}
    (h1 : st.status ≠ LiveStreamStatus.idle)
    (h2 : st.status ≠ LiveStreamStatus.error) : cleanEntry st := by
  intro hc
  rcases hc with hc | hc
  · exact absurd hc h1
  · exact absurd hc h2

theorem cleanEntry_of_none {st : StreamState}
    (h1 : st.stream = none) (h2 : st.remoteSocketId = none) : cleanEntry st :=
  fun _ => ⟨h1, h2⟩

theorem idleErrorClean_teardownPeer {s : ViewerState} (sid : String)
    (h : idleErrorClean s) : idleErrorClean (teardownPeer s sid) := by
  unfold idleErrorClean
  rw [teardownPeer_streamStates]
  exact h

theorem idleErrorClean_stopStream {s : ViewerState} (sid : String)
    (st : LiveStreamStatus) (msg : Option String)
    (h : idleErrorClean s) : idleErrorClean (stopStream s sid st msg) := by
  unfold idleErrorClean
  rw [stopStream_streamStates]
  exact cleanMap_insert h (cleanEntry_of_none rfl rfl)

theorem idleErrorClean_requestStream {s : ViewerState} (sid : String)
    (force : Bool) (h : idleErrorClean s) :
    idleErrorClean (requestStream s sid force) := by
  unfold requestStream
  cases hf : s.sessions.find? (fun ses => ses.id = sid) with
  | none => exact h
  | some session =>
      by_cases hg : requestStreamGuard (lookupA s.streamStates sid) force
      · simp only [hg, if_true]
        exact h
      · simp only [hg, if_false]
        exact cleanMap_insert h (cleanEntry_of_status (by simp) (by simp))

theorem idleErrorClean_onOfferReceived {s : ViewerState}
    (examId sender studentId : String) (negf : Option String)
    (h : idleErrorClean s) :
    idleErrorClean (onOfferReceived s examId sender studentId negf) := by
  unfold idleErrorClean
  rw [onOfferReceived_streamStates]
  cases hf : s.sessions.find?
      (fun ses => ses.examId = examId && ses.userId = studentId) with
  | none => exact h
  | some ts =>
      cases negf with
      | none => exact cleanMap_insert h (cleanEntry_of_status (by simp) (by simp))
      | some msg => exact cleanMap_insert h (cleanEntry_of_none rfl rfl)

theorem idleErrorClean_onTrackEvent {s : ViewerState} (sid : String)
    (pcId : Nat) (streams : List MediaStream) (now : Nat)
    (h : idleErrorClean s) :
    idleErrorClean (onTrackEvent s sid pcId streams now) := by
  unfold onTrackEvent
  cases h1 : lookupA s.peers sid with
  | none => exact h
  | some info =>
      by_cases h2 : info.pcId = pcId
      · simp only [h2, if_true]
        cases streams with
        | nil => exact h
        | cons ms rest =>
            by_cases h3 : ms.trackCount = 0
            · simp only [h3, if_true]
              exact h
            · simp only [h3, if_false]
              exact cleanMap_insert h (cleanEntry_of_status (by simp) (by simp))
      · simp only [h2, if_false]
        exact h

theorem idleErrorClean_onConnStateChange {s : ViewerState} (sid : String)
    (pcId : Nat) (cs : ConnState) (now : Nat) (h : idleErrorClean s) :
    idleErrorClean (onConnStateChange s sid pcId cs now) := by
  unfold onConnStateChange
  cases h1 : lookupA s.peers sid with
  | none => exact h
  | some info =>
      by_cases h2 : info.pcId = pcId
      · simp only [h2, if_true]
        cases cs with
        | failed => exact idleErrorClean_stopStream _ _ _ h
        | disconnected => exact idleErrorClean_stopStream _ _ _ h
        | closed => exact idleErrorClean_stopStream _ _ _ h
        | connected =>
            cases h3 : lookupA s.streamStates sid with
            | none => exact h
            | some currentState =>
                change idleErrorClean
                  (if currentState.status ≠ LiveStreamStatus.live ∧
                      currentState.stream ≠ none then _ else _)
                by_cases h4 : currentState.status ≠ LiveStreamStatus.live ∧
                    currentState.stream ≠ none
                · rw [if_pos h4]
                  refine cleanMap_insert h ?_
                  exact cleanEntry_of_status (by simp) (by simp)
                · rw [if_neg h4]
                  exact h
        | newConn => exact h
        | connecting => exact h
      · simp only [h2, if_false]
        exact h

theorem idleErrorClean_onIceCandidateReceived {s : ViewerState}
    (sender : String) (candidate : Option String) (applyOk : Bool)
    (h : idleErrorClean s) :
    idleErrorClean (onIceCandidateReceived s sender candidate applyOk) := by
  unfold idleErrorClean
  rw [onIceCandidateReceived_streamStates]
  exact h

theorem idleErrorClean_onLocalIceCandidate {s : ViewerState} (sid : String)
    (pcId : Nat) (candidate : Option String) (h : idleErrorClean s) :
    idleErrorClean (onLocalIceCandidate s sid pcId candidate) := by
  unfold idleErrorClean
  rw [onLocalIceCandidate_streamStates]
  exact h

theorem idleErrorClean_ensureIdleEntries {s : ViewerState}
    (h : idleErrorClean s) : idleErrorClean (ensureIdleEntries s) := by
  unfold ensureIdleEntries
  by_cases he : s.sessions = []
  · simp only [he, if_true]
    exact h
  · simp only [he, if_false]
    unfold idleErrorClean
    refine foldl_preserves cleanMap _ ?_ s.sessions s.streamStates h
    intro m ses hm
    cases hl : lookupA m ses.id with
    | some _ => simpa [hl] using hm
    | none =>
        simp only [hl]
        exact cleanMap_insert hm (cleanEntry_of_none rfl rfl)

theorem idleErrorClean_setSessions {s : ViewerState}
    (ss : List ProctoringSession) (h : idleErrorClean s) :
    idleErrorClean (setSessions s ss) :=
  idleErrorClean_ensureIdleEntries h

theorem idleErrorClean_reconcile {s : ViewerState} (h : idleErrorClean s) :
    idleErrorClean (reconcile s) := by
  unfold reconcile
  refine foldl_preserves idleErrorClean _ ?_ _ _
    (foldl_preserves idleErrorClean _ ?_ s.sessions s h)
  · intro a b ha
    by_cases hb : b.1 ∈ activeIds s ∨ b.2.stream = none
    · simpa [hb] using ha
    · simp only [hb, if_false]
      exact idleErrorClean_stopStream _ _ _ ha
  · intro a b ha
    by_cases hb : b.status = "active"
    · simp only [hb, if_true]
      cases hl : lookupA a.streamStates b.id with
      | none => exact idleErrorClean_requestStream _ _ ha
      | some st =>
          by_cases hs : st.status = LiveStreamStatus.idle
          · simp only [hs, if_true]
            exact idleErrorClean_requestStream _ _ ha
          · simp only [hs, if_false]
            exact ha
    · simp only [hb, if_false]
      exact ha

theorem idleErrorClean_stopFold {s : ViewerState}
    (l : List ProctoringSession) (st : LiveStreamStatus) (msg : Option String)
    (h : idleErrorClean s) :
    idleErrorClean
      (l.foldl (fun acc ses => stopStream acc ses.id st msg) s) :=
  foldl_preserves idleErrorClean _
    (fun _ _ ha => idleErrorClean_stopStream _ _ _ ha) l s h

theorem idleErrorClean_onSocketDisconnect {s : ViewerState} (examId : String)
    (h : idleErrorClean s) : idleErrorClean (onSocketDisconnect s examId) :=
  idleErrorClean_stopFold _ _ _ h

theorem idleErrorClean_onReconnectFailed {s : ViewerState} (examId : String)
    (h : idleErrorClean s) : idleErrorClean (onReconnectFailed s examId) :=
  idleErrorClean_stopFold _ _ _ h

theorem idleErrorClean_onUserLeft {s : ViewerState} (examId userId : String)
    (h : idleErrorClean s) : idleErrorClean (onUserLeft s examId userId) :=
  idleErrorClean_stopFold _ _ _ h

theorem idleErrorClean_vstep {s : ViewerState} (e : VEvent)
    (h : idleErrorClean s) : idleErrorClean (vstep s e) := by
  cases e with
  | setSessionsEvt ss => exact idleErrorClean_setSessions ss h
  | reconcileEvt => exact idleErrorClean_reconcile h
  | offerReceivedEvt examId sender studentId negf =>
      exact idleErrorClean_onOfferReceived examId sender studentId negf h
  | trackEvt sid pcId streams now =>
      exact idleErrorClean_onTrackEvent sid pcId streams now h
  | connStateEvt sid pcId cs now =>
      exact idleErrorClean_onConnStateChange sid pcId cs now h
  | localIceEvt sid pcId candidate =>
      exact idleErrorClean_onLocalIceCandidate sid pcId candidate h
  | remoteIceEvt sender candidate applyOk =>
      exact idleErrorClean_onIceCandidateReceived sender candidate applyOk h
  | requestStreamEvt sid force => exact idleErrorClean_requestStream sid force h
  | stopStreamEvt sid => exact idleErrorClean_stopStream sid _ _ h
  | disconnectEvt examId => exact idleErrorClean_onSocketDisconnect examId h
  | reconnectFailedEvt examId => exact idleErrorClean_onReconnectFailed examId h
  | userLeftEvt examId userId => exact idleErrorClean_onUserLeft examId userId h

theorem mapLive_insert {m : List (String × StreamState)} {k : String}
    {v : StreamState} {sid : String} (hv : v.status ≠ LiveStreamStatus.live) :
    (lookupA (insertA m k v) sid).map (·.status) = some LiveStreamStatus.live →
    (lookupA m sid).map (·.status) = some LiveStreamStatus.live := by
  intro hl
  rw [lookupA_insertA] at hl
  split at hl
  · exact absurd (by simpa using hl) hv
  · exact hl

theorem liveAt_stopStream {s : ViewerState} {sid sid' : String}
    {st : LiveStreamStatus} {msg : Option String}
    (hst : st ≠ LiveStreamStatus.live) :
    liveAt (stopStream s sid st msg) sid' → liveAt s sid' := by
  unfold liveAt
  rw [stopStream_streamStates]
  exact mapLive_insert hst

theorem liveAt_requestStream {s : ViewerState} {sid sid' : String}
    {force : Bool} :
    liveAt (requestStream s sid force) sid' → liveAt s sid' := by
  unfold requestStream
  cases hf : s.sessions.find? (fun ses => ses.id = sid) with
  | none => exact id
  | some session =>
      by_cases hg : requestStreamGuard (lookupA s.streamStates sid) force
      · simp only [hg, if_true]
        exact id
      · simp only [hg, if_false]
        exact mapLive_insert (by simp)

theorem liveAt_ensureIdleEntries {s : ViewerState} {sid : String} :
    liveAt (ensureIdleEntries s) sid → liveAt s sid := by
  unfold ensureIdleEntries liveAt
  by_cases he : s.sessions = []
  · rw [if_pos he]
    exact id
  · rw [if_neg he]
    refine foldl_preserves
      (fun m => (lookupA m sid).map (·.status) = some LiveStreamStatus.live →
        (lookupA s.streamStates sid).map (·.status) = some LiveStreamStatus.live)
      _ ?_ s.sessions s.streamStates id
    intro m ses hm
    cases hl : lookupA m ses.id with
    | some _ => simpa [hl] using hm
    | none =>
        simp only [hl]
        intro hx
        exact hm (mapLive_insert (by decide) hx)

theorem liveAt_setSessions {s : ViewerState} {ss : List ProctoringSession}
    {sid : String} : liveAt (setSessions s ss) sid → liveAt s sid :=
  liveAt_ensureIdleEntries

theorem liveAt_onOfferReceived {s : ViewerState}
    {examId sender studentId : String} {negf : Option String} {sid : String} :
    liveAt (onOfferReceived s examId sender studentId negf) sid →
    liveAt s sid := by
  unfold liveAt
  rw [onOfferReceived_streamStates]
  cases hf : s.sessions.find?
      (fun ses => ses.examId = examId && ses.userId = studentId) with
  | none => exact id
  | some ts =>
      cases negf with
      | none => exact mapLive_insert (by simp)
      | some msg => exact mapLive_insert (by simp)

theorem liveAt_stopFold {st : LiveStreamStatus} {msg : Option String}
    {sid : String} (hst : st ≠ LiveStreamStatus.live)
    (l : List ProctoringSession) :
    ∀ s : ViewerState,
      liveAt (l.foldl (fun acc ses => stopStream acc ses.id st msg) s) sid →
      liveAt s sid := by
  induction l with
  | nil => intro s; exact id
  | cons hd tl ih => intro s hx; exact liveAt_stopStream hst (ih _ hx)

theorem liveAt_reconcile {s : ViewerState} {sid : String} :
    liveAt (reconcile s) sid → liveAt s sid := by
  unfold reconcile
  refine foldl_preserves (fun x => liveAt x sid → liveAt s sid) _ ?_ _ _
    (foldl_preserves (fun x => liveAt x sid → liveAt s sid) _ ?_
      s.sessions s id)
  · intro a b ha
    by_cases hb : b.1 ∈ activeIds s ∨ b.2.stream = none
    · rw [if_pos hb]
      exact ha
    · rw [if_neg hb]
      intro hx
      exact ha (liveAt_stopStream (by decide) hx)
  · intro a b ha
    by_cases hb : b.status = "active"
    · simp only [hb, if_true]
      cases hl : lookupA a.streamStates b.id with
      | none =>
          intro hx
          exact ha (liveAt_requestStream hx)
      | some st =>
          by_cases hs : st.status = LiveStreamStatus.idle
          · simp only [hs, if_true]
            intro hx
            exact ha (liveAt_requestStream hx)
          · simp only [hs, if_false]
            exact ha
    · simp only [hb, if_false]
      exact ha

/-! ## Field characterizations of teardown -/
theorem teardownPeer_peers (s : ViewerState) (sid : String) :
    (teardownPeer s sid).peers =
      match lookupA s.peers sid with
      | some _ => eraseA s.peers sid
      | none => s.peers := by
  unfold teardownPeer
  cases h : lookupA s.peers sid <;>
    cases h2 : (lookupA s.streamStates sid).bind (·.stream) <;>
    simp [h, h2]

theorem teardownPeer_pcs (s : ViewerState) (sid : String) :
    (teardownPeer s sid).pcs =
      match lookupA s.peers sid with
      | some info =>
          insertA s.pcs info.pcId
            (detachedPC (((lookupA s.pcs info.pcId).map
              (·.remoteCandidates)).getD []))
      | none => s.pcs := by
  unfold teardownPeer
  cases h : lookupA s.peers sid <;>
    cases h2 : (lookupA s.streamStates sid).bind (·.stream) <;>
    simp [h, h2]

theorem teardownPeer_rsm (s : ViewerState) (sid : String) :
    (teardownPeer s sid).remoteSessionMap =
      match lookupA s.peers sid with
      | some info =>
          if info.remoteSocketId ≠ "" then
            eraseA s.remoteSessionMap info.remoteSocketId
          else s.remoteSessionMap
      | none => s.remoteSessionMap := by
  unfold teardownPeer
  cases h : lookupA s.peers sid <;>
    cases h2 : (lookupA s.streamStates sid).bind (·.stream) <;>
    simp [h, h2]

theorem stopStream_peers (s : ViewerState) (sid : String)
    (st : LiveStreamStatus) (msg : Option String) :
    (stopStream s sid st msg).peers = (teardownPeer s sid).peers := by
  simp [stopStream]

theorem stopStream_pcs (s : ViewerState) (sid : String)
    (st : LiveStreamStatus) (msg : Option String) :
    (stopStream s sid st msg).pcs = (teardownPeer s sid).pcs := by
  simp [stopStream]

theorem stopStream_rsm (s : ViewerState) (sid : String)
    (st : LiveStreamStatus) (msg : Option String) :
    (stopStream s sid st msg).remoteSessionMap =
      (teardownPeer s sid).remoteSessionMap := by
  simp [stopStream]

theorem teardownPeerConnection_peers (s : PublisherState) (psid : String) :
    (teardownPeerConnection s psid).peers =
      match lookupA s.peers psid with
      | some _ => eraseA s.peers psid
      | none => s.peers := by
  unfold teardownPeerConnection
  cases h : lookupA s.peers psid <;> simp [h]

theorem teardownPeerConnection_pcs (s : PublisherState) (psid : String) :
    (teardownPeerConnection s psid).pcs =
      match lookupA s.peers psid with
      | some p =>
          insertA s.pcs p
            { (lookupA s.pcs p).getD defaultPubPC with
              closed := true
              onIceAttached := false
              ontrackAttached := false
              onConnAttached := false }
      | none => s.pcs := by
  unfold teardownPeerConnection
  cases h : lookupA s.peers psid <;> simp [h]

theorem teardownPeerConnection_nextPcId (s : PublisherState) (psid : String) :
    (teardownPeerConnection s psid).nextPcId = s.nextPcId := by
  unfold teardownPeerConnection
  cases h : lookupA s.peers psid <;> simp [h]

theorem teardownPeerConnection_emitted (s : PublisherState) (psid : String) :
    (teardownPeerConnection s psid).emitted = s.emitted := by
  unfold teardownPeerConnection
  cases h : lookupA s.peers psid <;> simp [h]

theorem teardownPeerConnection_camera (s : PublisherState) (psid : String) :
    (teardownPeerConnection s psid).cameraStream = s.cameraStream := by
  unfold teardownPeerConnection
  cases h : lookupA s.peers psid <;> simp [h]

theorem teardownPeerConnection_socket (s : PublisherState) (psid : String) :
    (teardownPeerConnection s psid).socketConnected = s.socketConnected := by
  unfold teardownPeerConnection
  cases h : lookupA s.peers psid <;> simp [h]

theorem teardownPeerConnection_logs (s : PublisherState) (psid : String) :
    (teardownPeerConnection s psid).logs = s.logs := by
  unfold teardownPeerConnection
  cases h : lookupA s.peers psid <;> simp [h]

/-! ## Helper lemmas for the claim theorems -/
theorem mem_addRequested (l : List String) (sid : String) :
    sid ∈ addRequested l sid := by
  unfold addRequested
  by_cases hm : sid ∈ l <;> simp [hm]

theorem requestStream_of_guard_true (s : ViewerState) (sid : String)
    (hg : requestStreamGuard (lookupA s.streamStates sid) false = true) :
    requestStream s sid false = s := by
  unfold requestStream
  cases hf : s.sessions.find? (fun x => x.id = sid) with
  | none => rfl
  | some ses => simp [hg]

theorem stoppedAs_stopStream_self (s : ViewerState) (sid : String)
    (msg : String) :
    stoppedAs (stopStream s sid LiveStreamStatus.error (some msg)) sid msg := by
  constructor
  · rw [stopStream_lookup_self]
    rfl
  · exact stopStream_peers_self s sid _ _

theorem stoppedAs_stopStream_preserved {s : ViewerState} {sid : String}
    {msg : String} (sid2 : String) (h : stoppedAs s sid msg) :
    stoppedAs (stopStream s sid2 LiveStreamStatus.error (some msg)) sid msg := by
  by_cases he : sid2 = sid
  · subst he
    exact stoppedAs_stopStream_self s sid2 msg
  · constructor
    · rw [stopStream_lookup_ne _ _ _ _ _ he]
      exact h.1
    · rw [stopStream_peers_ne _ _ _ _ _ he]
      exact h.2

theorem stopFold_stops (msg : String) :
    ∀ (l : List ProctoringSession) (s : ViewerState) (sid : String),
      (∃ ses ∈ l, ses.id = sid) →
      stoppedAs
        (l.foldl (fun acc ses =>
          stopStream acc ses.id LiveStreamStatus.error (some msg)) s) sid msg := by
  intro l
  induction l with
  | nil =>
      intro s sid h
      rcases h with ⟨ses, hm, _⟩
      cases hm
  | cons hd tl ih =>
      intro s sid h
      rcases h with ⟨ses, hm, hid⟩
      rw [List.foldl_cons]
      rcases List.mem_cons.mp hm with he | hm2
      · subst he
        subst hid
        refine foldl_preserves (fun x => stoppedAs x ses.id msg) _ ?_ tl _
          (stoppedAs_stopStream_self s ses.id msg)
        intro a b ha
        exact stoppedAs_stopStream_preserved _ ha
      · exact ih _ _ ⟨ses, hm2, hid⟩

/-! ## Claim theorems -/
/-- Claim C3: on the viewer side, a transport-state transition on the
session's current peer connection maps to the stream store as
`failed` → `error` with the "connection could not be established" message
(`"Không thể thiết lập kết nối video"`), `disconnected` → `error` with the
"connection interrupted" message (`"Kết nối video đã bị gián đoạn"`), and
`closed` → `idle` with no error message; in all three cases the peer entry
is removed and the stored stream handle is cleared. -/
theorem viewer_transport_state_mapping (s : ViewerState) (sid : String)
    (pcId now : Nat) (info : PeerInfo)
    (hp : lookupA s.peers sid = some info) (hpc : info.pcId = pcId) :
    (lookupA (onConnStateChange s sid pcId ConnState.failed now).streamStates
        sid =
      some
        { status := LiveStreamStatus.error
          stream := none
          lastUpdated := (lookupA s.streamStates sid).bind (·.lastUpdated)
          error := some "Không thể thiết lập kết nối video"
          remoteSocketId := none } ∧
      lookupA (onConnStateChange s sid pcId ConnState.failed now).peers sid =
        none) ∧
    (lookupA
        (onConnStateChange s sid pcId ConnState.disconnected now).streamStates
        sid =
      some
        { status := LiveStreamStatus.error
          stream := none
          lastUpdated := (lookupA s.streamStates sid).bind (·.lastUpdated)
          error := some "Kết nối video đã bị gián đoạn"
          remoteSocketId := none } ∧
      lookupA (onConnStateChange s sid pcId ConnState.disconnected now).peers
        sid = none) ∧
    (lookupA (onConnStateChange s sid pcId ConnState.closed now).streamStates
        sid =
      some
        { status := LiveStreamStatus.idle
          stream := none
          lastUpdated := (lookupA s.streamStates sid).bind (·.lastUpdated)
          error := none
          remoteSocketId := none } ∧
      lookupA (onConnStateChange s sid pcId ConnState.closed now).peers sid =
        none) := by
  unfold onConnStateChange
  refine ⟨⟨?_, ?_⟩, ⟨?_, ?_⟩, ?_, ?_⟩ <;>
    simp [hp, hpc, stopStream_lookup_self, stopStream_peers_self]

theorem viewer_transport_state_mapping_witness :
    lookupA c3State.peers "s1" = some ⟨0, "r1", "e1"⟩ ∧
    lookupA (onConnStateChange c3State "s1" 0 ConnState.closed 11).streamStates
        "s1" =
      some
        { status := LiveStreamStatus.idle
          stream := none
          lastUpdated := some 5
          error := none
          remoteSocketId := none } ∧
    lookupA (onConnStateChange c3State "s1" 0 ConnState.closed 11).peers "s1" =
      none :=
  ⟨by decide,
    (viewer_transport_state_mapping c3State "s1" 0 11 ⟨0, "r1", "e1"⟩
      (by decide) rfl).2.2⟩

/-- Claim C4: an inbound ICE-candidate event whose sender socket has no
entry in the remote-socket-to-session map, or whose mapped session has no
peer connection, is dropped: the handler returns the state unchanged, so
in particular no session's stream state is mutated. -/
theorem unmapped_ice_candidate_dropped (s : ViewerState)
    (sender : String) (cand : Option String) (applyOk : Bool)
    (h : lookupA s.remoteSessionMap sender = none ∨
      (∀ sid, lookupA s.remoteSessionMap sender = some sid →
        lookupA s.peers sid = none)) :
    onIceCandidateReceived s sender cand applyOk = s := by
  unfold onIceCandidateReceived
  cases h1 : lookupA s.remoteSessionMap sender with
  | none => rfl
  | some sid =>
      have h2 : lookupA s.peers sid = none := by
        rcases h with h | h
        · rw [h] at h1
          exact Option.noConfusion h1
        · exact h sid h1
      simp [h2]

theorem unmapped_ice_candidate_dropped_witness :
    lookupA c3State.remoteSessionMap "r9" = none ∧
    onIceCandidateReceived c3State "r9" (some "cand-a") true = c3State :=
  ⟨by decide,
    unmapped_ice_candidate_dropped c3State "r9" (some "cand-a") true
      (Or.inl (by decide))⟩

/-- Claim C5: from an `idle` (or absent) stream state for a known session,
`requestStream` without `force` emits exactly one `proctor_request_stream`
event and records the session in the "requested" marker set; a second
unforced call is then a no-op (the first call set the status to `waiting`,
which the guard rejects), so exactly one request is outstanding. -/
theorem requestStream_idempotent_from_idle (s : ViewerState) (sid : String)
    (ses : ProctoringSession)
    (hfind : s.sessions.find? (fun x => x.id = sid) = some ses)
    (hidle : (lookupA s.streamStates sid).map (·.status) =
        some LiveStreamStatus.idle ∨ lookupA s.streamStates sid = none) :
    (requestStream s sid false).emitted =
      s.emitted ++ [OutMsg.requestStreamMsg ses.userId] ∧
    sid ∈ (requestStream s sid false).requested ∧
    requestStream (requestStream s sid false) sid false =
      requestStream s sid false := by
  have hguard : requestStreamGuard (lookupA s.streamStates sid) false = false := by
    rcases hidle with hidle | hidle
    · cases hl : lookupA s.streamStates sid with
      | none => rfl
      | some st =>
          rw [hl] at hidle
          simp at hidle
          simp [requestStreamGuard, hidle]
    · rw [hidle]
      rfl
  have hstep : requestStream s sid false =
      { s with
        requested := addRequested s.requested sid
        streamStates := insertA s.streamStates sid
          { status := LiveStreamStatus.waiting
            stream := (lookupA s.streamStates sid).bind (·.stream)
            lastUpdated := (lookupA s.streamStates sid).bind (·.lastUpdated)
            error := none
            remoteSocketId := none }
        emitted := s.emitted ++ [OutMsg.requestStreamMsg ses.userId] } := by
    unfold requestStream
    rw [hfind]
    simp [hguard]
  refine ⟨?_, ?_, ?_⟩
  · rw [hstep]
  · rw [hstep]
    exact mem_addRequested _ _
  · apply requestStream_of_guard_true
    rw [hstep]
    simp [requestStreamGuard, lookupA_insertA_self]

theorem requestStream_idempotent_from_idle_witness :
    idleState.sessions.find? (fun x => x.id = "s1") =
      some ⟨"s1", "e1", "u1", "active"⟩ ∧
    (lookupA idleState.streamStates "s1").map (·.status) =
      some LiveStreamStatus.idle ∧
    (requestStream idleState "s1" false).emitted =
      idleState.emitted ++ [OutMsg.requestStreamMsg "u1"] ∧
    "s1" ∈ (requestStream idleState "s1" false).requested ∧
    requestStream (requestStream idleState "s1" false) "s1" false =
      requestStream idleState "s1" false := by
  refine ⟨by decide, by decide, ?_⟩
  exact requestStream_idempotent_from_idle idleState "s1"
    ⟨"s1", "e1", "u1", "active"⟩ (by decide) (Or.inl (by decide))

/-- Claim C7: when the signaling socket of an exam context emits
`disconnect`, every session of that exam ends with an `error` stream state
carrying the "Mất kết nối tới máy chủ giám sát" (connection to the
monitoring server lost) message, a null stream handle, no remote socket
id, and no peer entry. -/
theorem socket_disconnect_errors_exam_sessions (s : ViewerState)
    (examId : String) (ses : ProctoringSession) (hmem : ses ∈ s.sessions)
    (hex : ses.examId = examId) :
    stoppedAs (onSocketDisconnect s examId) ses.id
      "Mất kết nối tới máy chủ giám sát" := by
  unfold onSocketDisconnect
  refine stopFold_stops _ _ _ _ ⟨ses, ?_, rfl⟩
  unfold relatedSessions
  rw [List.mem_filter]
  exact ⟨hmem, by simp [hex]⟩

theorem socket_disconnect_errors_exam_sessions_witness :
    (⟨"s2", "e1", "u2", "active"⟩ : ProctoringSession) ∈ c7State.sessions ∧
    stoppedAs (onSocketDisconnect c7State "e1") "s2"
      "Mất kết nối tới máy chủ giám sát" :=
  ⟨by decide,
    socket_disconnect_errors_exam_sessions c7State "e1"
      ⟨"s2", "e1", "u2", "active"⟩ (by decide) rfl⟩

/-- Claim C6: on the publisher side, an inbound answer is applied as the
remote description only when none is set yet or the set one has a
different type; in particular a second delivery of the same answer leaves
the peer connection unchanged (idempotence against duplicates). -/
theorem publisher_answer_duplicate_safe :
    (∀ (s : PublisherState) (ans : SessionDesc) (sender : String) (p : Nat)
        (rd : SessionDesc),
      lookupA s.peers sender = some p →
      ((lookupA s.pcs p).getD defaultPubPC).remoteDescription = some rd →
      rd.descType = ans.descType →
      handleAnswerReceived s (some ans) sender false = s) ∧
    (∀ (s : PublisherState) (ans : SessionDesc) (sender : String) (p : Nat),
      lookupA s.peers sender = some p →
      ((lookupA s.pcs p).getD defaultPubPC).remoteDescription = none →
      (handleAnswerReceived s (some ans) sender false).pcs =
        insertA s.pcs p
          { (lookupA s.pcs p).getD defaultPubPC with
            remoteDescription := some ans }) ∧
    (∀ (s : PublisherState) (ans : SessionDesc) (sender : String) (p : Nat)
        (rd : SessionDesc),
      lookupA s.peers sender = some p →
      ((lookupA s.pcs p).getD defaultPubPC).remoteDescription = some rd →
      rd.descType ≠ ans.descType →
      (handleAnswerReceived s (some ans) sender false).pcs =
        insertA s.pcs p
          { (lookupA s.pcs p).getD defaultPubPC with
            remoteDescription := some ans }) ∧
    (∀ (s : PublisherState) (a : Option SessionDesc) (sender : String),
      handleAnswerReceived (handleAnswerReceived s a sender false) a sender
          false =
        handleAnswerReceived s a sender false) := by
  refine ⟨?_, ?_, ?_, ?_⟩
  · intro s ans sender p rd hp hrd ht
    unfold handleAnswerReceived
    rw [hp]
    simp [hrd, ht]
  · intro s ans sender p hp hrd
    unfold handleAnswerReceived
    rw [hp]
    simp [hrd]
  · intro s ans sender p rd hp hrd ht
    unfold handleAnswerReceived
    rw [hp]
    simp [hrd, ht]
  · intro s a sender
    cases hp : lookupA s.peers sender with
    | none => simp [handleAnswerReceived, hp]
    | some p =>
        cases a with
        | none => simp [handleAnswerReceived, hp]
        | some ans =>
            cases hrd : ((lookupA s.pcs p).getD defaultPubPC).remoteDescription
              with
            | none =>
                have h1 : handleAnswerReceived s (some ans) sender false =
                    { s with
                      pcs := insertA s.pcs p
                        { (lookupA s.pcs p).getD defaultPubPC with
                          remoteDescription := some ans } } := by
                  unfold handleAnswerReceived
                  rw [hp]
                  simp [hrd]
                rw [h1]
                unfold handleAnswerReceived
                simp [hp, lookupA_insertA_self]
            | some rd =>
                by_cases ht : rd.descType = ans.descType
                · have h1 : handleAnswerReceived s (some ans) sender false =
                      s := by
                    unfold handleAnswerReceived
                    rw [hp]
                    simp [hrd, ht]
                  rw [h1, h1]
                · have h1 : handleAnswerReceived s (some ans) sender false =
                      { s with
                        pcs := insertA s.pcs p
                          { (lookupA s.pcs p).getD defaultPubPC with
                            remoteDescription := some ans } } := by
                    unfold handleAnswerReceived
                    rw [hp]
                    simp [hrd, ht]
                  rw [h1]
                  unfold handleAnswerReceived
                  simp [hp, lookupA_insertA_self]

theorem publisher_answer_duplicate_safe_witness :
    lookupA pubState1.peers "pr1" = some 0 ∧
    ((lookupA pubState1.pcs 0).getD defaultPubPC).remoteDescription =
      some ⟨"answer", "sdp-a"⟩ ∧
    handleAnswerReceived pubState1 (some ⟨"answer", "sdp-b"⟩) "pr1" false =
      pubState1 :=
  ⟨by decide, by decide,
    publisher_answer_duplicate_safe.1 pubState1 ⟨"answer", "sdp-b"⟩ "pr1" 0
      ⟨"answer", "sdp-a"⟩ (by decide) (by decide) rfl⟩

/-- Claim C8: on the publisher side, when the camera manager holds no
current stream and `cameraManager.start()` fails while answering an offer
request, the handler logs a descriptive error and aborts: no new peer
connection is constructed (the arena counter is unchanged), no entry for
the requesting proctor socket remains in the peer map, and no offer is
emitted. -/
theorem capture_failure_aborts_offer (s : PublisherState) (psid m : String)
    (offer : SessionDesc) (offf : Option String)
    (hconn : s.socketConnected = true) (hcam : s.cameraStream = none) :
    (respondToProctorOfferRequest s psid (CaptureResult.failure m) offer
        offf).nextPcId = s.nextPcId ∧
    lookupA (respondToProctorOfferRequest s psid (CaptureResult.failure m)
        offer offf).peers psid = none ∧
    (respondToProctorOfferRequest s psid (CaptureResult.failure m) offer
        offf).emitted = s.emitted ∧
    (respondToProctorOfferRequest s psid (CaptureResult.failure m) offer
        offf).logs =
      s.logs ++ ["Không thể khởi tạo camera để stream cho giám thị"] := by
  unfold respondToProctorOfferRequest
  rw [hconn]
  cases h1 : lookupA s.peers psid with
  | none => simp [h1, hcam]
  | some p =>
      simp [h1, hcam, teardownPeerConnection_nextPcId,
        teardownPeerConnection_emitted, teardownPeerConnection_camera,
        teardownPeerConnection_logs, teardownPeerConnection_peers,
        lookupA_eraseA_self]

theorem capture_failure_aborts_offer_witness :
    pubState2.socketConnected = true ∧ pubState2.cameraStream = none ∧
    (respondToProctorOfferRequest pubState2 "pr1"
        (CaptureResult.failure "busy") ⟨"offer", "o"⟩ none).nextPcId =
      pubState2.nextPcId ∧
    lookupA (respondToProctorOfferRequest pubState2 "pr1"
        (CaptureResult.failure "busy") ⟨"offer", "o"⟩ none).peers "pr1" =
      none ∧
    (respondToProctorOfferRequest pubState2 "pr1"
        (CaptureResult.failure "busy") ⟨"offer", "o"⟩ none).emitted =
      pubState2.emitted ∧
    (respondToProctorOfferRequest pubState2 "pr1"
        (CaptureResult.failure "busy") ⟨"offer", "o"⟩ none).logs =
      pubState2.logs ++ ["Không thể khởi tạo camera để stream cho giám thị"] :=
  ⟨rfl, rfl,
    capture_failure_aborts_offer pubState2 "pr1" "busy" ⟨"offer", "o"⟩ none
      rfl rfl⟩

/-! ## Conditional teardown characterizations -/
theorem teardownPeer_pcs_some {s : ViewerState} {sid : String}
    {info : PeerInfo} (h : lookupA s.peers sid = some info) :
    (teardownPeer s sid).pcs =
      insertA s.pcs info.pcId
        (detachedPC (((lookupA s.pcs info.pcId).map
          (·.remoteCandidates)).getD [])) := by
  rw [teardownPeer_pcs, h]

theorem teardownPeer_peers_some {s : ViewerState} {sid : String}
    {info : PeerInfo} (h : lookupA s.peers sid = some info) :
    (teardownPeer s sid).peers = eraseA s.peers sid := by
  rw [teardownPeer_peers, h]

theorem teardownPeer_rsm_some {s : ViewerState} {sid : String}
    {info : PeerInfo} (h : lookupA s.peers sid = some info)
    (hr : info.remoteSocketId ≠ "") :
    (teardownPeer s sid).remoteSessionMap =
      eraseA s.remoteSessionMap info.remoteSocketId := by
  rw [teardownPeer_rsm, h]
  simp [hr]

theorem teardownPeerConnection_peers_some {s : PublisherState}
    {psid : String} {p : Nat} (h : lookupA s.peers psid = some p) :
    (teardownPeerConnection s psid).peers = eraseA s.peers psid := by
  rw [teardownPeerConnection_peers, h]

theorem teardownPeerConnection_pcs_some {s : PublisherState}
    {psid : String} {p : Nat} (h : lookupA s.peers psid = some p) :
    (teardownPeerConnection s psid).pcs =
      insertA s.pcs p
        { (lookupA s.pcs p).getD defaultPubPC with
          closed := true
          onIceAttached := false
          ontrackAttached := false
          onConnAttached := false } := by
  rw [teardownPeerConnection_pcs, h]

theorem onOfferReceived_pcs_ok (s : ViewerState)
    (examId sender studentId : String) (ts : ProctoringSession)
    (hfind : s.sessions.find?
      (fun ses => ses.examId = examId && ses.userId = studentId) = some ts) :
    (onOfferReceived s examId sender studentId none).pcs =
      (createViewerPeer s ts.id sender examId).pcs := by
  unfold onOfferReceived
  rw [hfind]

theorem onOfferReceived_pcs_fail (s : ViewerState)
    (examId sender studentId msg : String) (ts : ProctoringSession)
    (hfind : s.sessions.find?
      (fun ses => ses.examId = examId && ses.userId = studentId) = some ts) :
    (onOfferReceived s examId sender studentId (some msg)).pcs =
      (stopStream (createViewerPeer s ts.id sender examId) ts.id
        LiveStreamStatus.error (some msg)).pcs := by
  unfold onOfferReceived
  rw [hfind]

theorem onOfferReceived_rsm_ok (s : ViewerState)
    (examId sender studentId : String) (ts : ProctoringSession)
    (hfind : s.sessions.find?
      (fun ses => ses.examId = examId && ses.userId = studentId) = some ts) :
    (onOfferReceived s examId sender studentId none).remoteSessionMap =
      (createViewerPeer s ts.id sender examId).remoteSessionMap := by
  unfold onOfferReceived
  rw [hfind]

theorem onOfferReceived_rsm_fail (s : ViewerState)
    (examId sender studentId msg : String) (ts : ProctoringSession)
    (hfind : s.sessions.find?
      (fun ses => ses.examId = examId && ses.userId = studentId) = some ts) :
    (onOfferReceived s examId sender studentId
        (some msg)).remoteSessionMap =
      (stopStream (createViewerPeer s ts.id sender examId) ts.id
        LiveStreamStatus.error (some msg)).remoteSessionMap := by
  unfold onOfferReceived
  rw [hfind]

theorem onOfferReceived_peers_ok (s : ViewerState)
    (examId sender studentId : String) (ts : ProctoringSession)
    (hfind : s.sessions.find?
      (fun ses => ses.examId = examId && ses.userId = studentId) = some ts) :
    (onOfferReceived s examId sender studentId none).peers =
      (createViewerPeer s ts.id sender examId).peers := by
  unfold onOfferReceived
  rw [hfind]

/-- Claim C1: at most one peer connection per session identity.  On the
viewer, when an offer arrives for a session that already has a peer
connection, the old connection ends closed with its observers detached,
its remote-socket mapping is gone, and (when negotiation succeeds) the
session maps to a single fresh connection.  On the publisher, answering an
offer request from a proctor socket that already has a peer connection
closes and detaches the old one first and leaves a single fresh connection
registered for that socket. -/
theorem single_peer_link_per_identity :
    (∀ (s : ViewerState) (examId sender studentId : String)
        (negf : Option String) (ts : ProctoringSession) (old : PeerInfo),
      s.sessions.find?
          (fun ses => ses.examId = examId && ses.userId = studentId) =
        some ts →
      lookupA s.peers ts.id = some old →
      old.pcId ≠ s.nextPcId →
      old.remoteSocketId ≠ "" →
      old.remoteSocketId ≠ sender →
      pcDetachedAt (onOfferReceived s examId sender studentId negf).pcs
          old.pcId ∧
        lookupA
          (onOfferReceived s examId sender studentId negf).remoteSessionMap
          old.remoteSocketId = none ∧
        (negf = none →
          lookupA (onOfferReceived s examId sender studentId negf).peers
            ts.id = some ⟨s.nextPcId, sender, examId⟩)) ∧
    (∀ (s : PublisherState) (psid : String) (p : Nat) (ms : MediaStream)
        (startRes : CaptureResult) (offer : SessionDesc)
        (offf : Option String),
      s.socketConnected = true →
      lookupA s.peers psid = some p →
      p ≠ s.nextPcId →
      s.cameraStream = some ms →
      pubPCDetachedAt
          (respondToProctorOfferRequest s psid startRes offer offf).pcs p ∧
        (offf = none →
          lookupA
            (respondToProctorOfferRequest s psid startRes offer offf).peers
            psid = some s.nextPcId)) := by
  constructor
  · intro s examId sender studentId negf ts old hfind hold hne hr hrs
    have hnext : (teardownPeer s ts.id).nextPcId = s.nextPcId :=
      teardownPeer_nextPcId s ts.id
    have hk : (teardownPeer s ts.id).nextPcId ≠ old.pcId := by
      rw [hnext]
      exact Ne.symm hne
    have hdet0 : lookupA (createViewerPeer s ts.id sender examId).pcs
        old.pcId =
        some (detachedPC (((lookupA s.pcs old.pcId).map
          (·.remoteCandidates)).getD [])) := by
      rw [createViewerPeer_pcs, lookupA_insertA_ne _ _ _ _ hk,
        teardownPeer_pcs_some hold, lookupA_insertA_self]
    have hrsm0 : lookupA
        (createViewerPeer s ts.id sender examId).remoteSessionMap
        old.remoteSocketId = none := by
      rw [createViewerPeer_rsm, lookupA_insertA_ne _ _ _ _ (Ne.symm hrs),
        teardownPeer_rsm_some hold hr, lookupA_eraseA_self]
    have hpeerc : lookupA (createViewerPeer s ts.id sender examId).peers
        ts.id = some ⟨(teardownPeer s ts.id).nextPcId, sender, examId⟩ := by
      rw [createViewerPeer_peers, lookupA_insertA_self]
    cases negf with
    | none =>
        refine ⟨?_, ?_, ?_⟩
        · rw [pcDetachedAt,
            onOfferReceived_pcs_ok s examId sender studentId ts hfind, hdet0]
          rfl
        · rw [onOfferReceived_rsm_ok s examId sender studentId ts hfind]
          exact hrsm0
        · intro _
          rw [onOfferReceived_peers_ok s examId sender studentId ts hfind,
            hpeerc, hnext]
    | some msg =>
        refine ⟨?_, ?_, ?_⟩
        · rw [pcDetachedAt,
            onOfferReceived_pcs_fail s examId sender studentId msg ts hfind,
            stopStream_pcs, teardownPeer_pcs_some hpeerc,
            lookupA_insertA_ne _ _ _ _ hk, hdet0]
          rfl
        · rw [onOfferReceived_rsm_fail s examId sender studentId msg ts hfind,
            stopStream_rsm, teardownPeer_rsm, hpeerc]
          by_cases hsg : sender = ""
          · subst hsg
            simp
            exact hrsm0
          · simp [hsg]
            rw [lookupA_eraseA_ne _ _ _ (Ne.symm hrs)]
            exact hrsm0
        · intro hcontra
          exact Option.noConfusion hcontra
  · intro s psid p ms startRes offer offf hconn hold hne hcam
    have hnext : (teardownPeerConnection s psid).nextPcId = s.nextPcId :=
      teardownPeerConnection_nextPcId s psid
    have hcam1 : (teardownPeerConnection s psid).cameraStream = some ms := by
      rw [teardownPeerConnection_camera]
      exact hcam
    have hstep : respondToProctorOfferRequest s psid startRes offer offf =
        respondToProctorOfferRequest.respondWithStream
          (teardownPeerConnection s psid) psid ms offer offf false := by
      unfold respondToProctorOfferRequest
      rw [hconn]
      cases startRes <;> simp [hold, hcam1]
    have hdet0 : lookupA (teardownPeerConnection s psid).pcs p =
        some
          { (lookupA s.pcs p).getD defaultPubPC with
            closed := true
            onIceAttached := false
            ontrackAttached := false
            onConnAttached := false } := by
      rw [teardownPeerConnection_pcs_some hold, lookupA_insertA_self]
    rw [hstep]
    unfold respondToProctorOfferRequest.respondWithStream
    cases offf with
    | none =>
        constructor
        · rw [pubPCDetachedAt]
          simp only [Bool.false_eq_true, if_false]
          rw [lookupA_insertA_ne, lookupA_insertA_ne, hdet0]
          · rfl
          · rw [hnext]
            exact Ne.symm hne
          · rw [hnext]
            exact Ne.symm hne
        · intro _
          simp only [Bool.false_eq_true, if_false]
          rw [lookupA_insertA_self, hnext]
    | some m =>
        constructor
        · rw [pubPCDetachedAt]
          simp only [Bool.false_eq_true, if_false]
          rw [teardownPeerConnection_pcs]
          simp only [lookupA_insertA_self]
          rw [lookupA_insertA_ne, lookupA_insertA_ne, hdet0]
          · rfl
          · rw [hnext]
            exact Ne.symm hne
          · rw [hnext]
            exact Ne.symm hne
        · intro hcontra
          exact Option.noConfusion hcontra

theorem single_peer_link_per_identity_witness :
    lookupA c3State.peers "s1" = some ⟨0, "r1", "e1"⟩ ∧
    pcDetachedAt (onOfferReceived c3State "e1" "r2" "u1" none).pcs 0 ∧
    lookupA (onOfferReceived c3State "e1" "r2" "u1" none).remoteSessionMap
      "r1" = none ∧
    lookupA (onOfferReceived c3State "e1" "r2" "u1" none).peers "s1" =
      some ⟨1, "r2", "e1"⟩ ∧
    lookupA pubState1.peers "pr1" = some 0 ∧
    pubPCDetachedAt
      (respondToProctorOfferRequest pubState1 "pr1"
        (CaptureResult.ok ⟨9, 1⟩) ⟨"offer", "o2"⟩ none).pcs 0 ∧
    lookupA (respondToProctorOfferRequest pubState1 "pr1"
        (CaptureResult.ok ⟨9, 1⟩) ⟨"offer", "o2"⟩ none).peers "pr1" =
      some 1 := by
  have hv := single_peer_link_per_identity.1 c3State "e1" "r2" "u1" none
    ⟨"s1", "e1", "u1", "active"⟩ ⟨0, "r1", "e1"⟩ (by decide) (by decide)
    (by decide) (by decide) (by decide)
  have hp := single_peer_link_per_identity.2 pubState1 "pr1" 0 ⟨5, 2⟩
    (CaptureResult.ok ⟨9, 1⟩) ⟨"offer", "o2"⟩ none rfl (by decide)
    (by decide) rfl
  exact ⟨by decide, hv.1, hv.2.1, hv.2.2 rfl, by decide, hp.1, hp.2 rfl⟩

/-- Claim C9: tearing a peer link down detaches all of its event
observers and closes the transport, removes the peer-map entry, and (on
the viewer) invalidates the remote-socket-to-session mapping, so that a
late ICE candidate from the old remote socket — and, on the publisher, a
late answer — is a no-op. -/
theorem teardown_detaches_and_invalidates :
    (∀ (s : ViewerState) (sid : String) (info : PeerInfo),
      lookupA s.peers sid = some info →
      info.remoteSocketId ≠ "" →
      pcDetachedAt (teardownPeer s sid).pcs info.pcId ∧
        lookupA (teardownPeer s sid).remoteSessionMap info.remoteSocketId =
          none ∧
        lookupA (teardownPeer s sid).peers sid = none ∧
        (∀ (cand : Option String) (ok : Bool),
          onIceCandidateReceived (teardownPeer s sid) info.remoteSocketId
              cand ok =
            teardownPeer s sid)) ∧
    (∀ (s : PublisherState) (psid : String) (p : Nat),
      lookupA s.peers psid = some p →
      pubPCDetachedAt (teardownPeerConnection s psid).pcs p ∧
        lookupA (teardownPeerConnection s psid).peers psid = none ∧
        (∀ (cand : Option String) (ok : Bool),
          pubIceCandidateReceived (teardownPeerConnection s psid) cand psid
              ok =
            teardownPeerConnection s psid) ∧
        (∀ (a : Option SessionDesc) (f : Bool),
          handleAnswerReceived (teardownPeerConnection s psid) a psid f =
            teardownPeerConnection s psid)) := by
  constructor
  · intro s sid info hp hr
    have hrsm : lookupA (teardownPeer s sid).remoteSessionMap
        info.remoteSocketId = none := by
      rw [teardownPeer_rsm_some hp hr, lookupA_eraseA_self]
    refine ⟨?_, hrsm, ?_, ?_⟩
    · rw [pcDetachedAt, teardownPeer_pcs_some hp, lookupA_insertA_self]
      rfl
    · rw [teardownPeer_peers_some hp, lookupA_eraseA_self]
    · intro cand ok
      unfold onIceCandidateReceived
      rw [hrsm]
  · intro s psid p hp
    have hpeers : lookupA (teardownPeerConnection s psid).peers psid =
        none := by
      rw [teardownPeerConnection_peers_some hp, lookupA_eraseA_self]
    refine ⟨?_, hpeers, ?_, ?_⟩
    · rw [pubPCDetachedAt, teardownPeerConnection_pcs_some hp,
        lookupA_insertA_self]
      rfl
    · intro cand ok
      unfold pubIceCandidateReceived
      rw [hpeers]
    · intro a f
      unfold handleAnswerReceived
      rw [hpeers]

theorem teardown_detaches_and_invalidates_witness :
    lookupA c7State.peers "s3" = some ⟨2, "r3", "e1"⟩ ∧
    pcDetachedAt (teardownPeer c7State "s3").pcs 2 ∧
    lookupA (teardownPeer c7State "s3").remoteSessionMap "r3" = none ∧
    onIceCandidateReceived (teardownPeer c7State "s3") "r3" (some "late")
        true =
      teardownPeer c7State "s3" ∧
    pubPCDetachedAt (teardownPeerConnection pubState1 "pr1").pcs 0 ∧
    handleAnswerReceived (teardownPeerConnection pubState1 "pr1")
        (some ⟨"answer", "late"⟩) "pr1" false =
      teardownPeerConnection pubState1 "pr1" := by
  have hv := teardown_detaches_and_invalidates.1 c7State "s3" ⟨2, "r3", "e1"⟩
    (by decide) (by decide)
  have hp := teardown_detaches_and_invalidates.2 pubState1 "pr1" 0 (by decide)
  exact ⟨by decide, hv.1, hv.2.1, hv.2.2.2 (some "late") true, hp.1,
    hp.2.2.2 (some ⟨"answer", "late"⟩) false⟩

/-- Claim C10: in every reachable viewer state, a stream-state entry whose
status is `idle` or `error` holds no stream handle and no remote socket
id.  The only writes producing those statuses are the initial idle seeding
and `stopStream`, both of which null the handle and the remote socket. -/
theorem reachable_idle_error_clean (s : ViewerState) (h : Reachable s) :
    idleErrorClean s := by
  induction h with
  | init => exact fun sid st hl => Option.noConfusion hl
  | step e hr ih => exact idleErrorClean_vstep e ih

theorem reachable_idle_error_clean_witness :
    idleErrorClean
      (vstep (vstep vinit
          (VEvent.setSessionsEvt [⟨"s1", "e1", "u1", "active"⟩]))
        (VEvent.stopStreamEvt "s1")) :=
  reachable_idle_error_clean _
    (Reachable.step _ (Reachable.step _ Reachable.init))

theorem liveAt_record_insert {s : ViewerState} {sid' sid : String}
    {v : StreamState} (h6 : sid' ≠ sid)
    (h : liveAt { s with streamStates := insertA s.streamStates sid' v }
      sid) :
    liveAt s sid := by
  unfold liveAt at h ⊢
  dsimp only at h
  rw [lookupA_insertA_ne _ _ _ _ h6] at h
  exact h

/-- Claim C2 counterexample: from the reachable state `cexTrace1`, whose
entry for `s1` is `connecting` while still holding a stream handle (kept
across the re-offer), a `connected` transport-state event alone — not a
track event — moves the status to `live`.  The track event is therefore
not the sole transition into `live`. -/
theorem connected_event_reaches_live :
    Reachable cexTrace1 ∧
    (lookupA cexTrace1.streamStates "s1").map (·.status) =
      some LiveStreamStatus.connecting ∧
    (lookupA cexTrace1.streamStates "s1").bind (·.stream) = some ⟨7, 2⟩ ∧
    (lookupA (vstep cexTrace1
        (VEvent.connStateEvt "s1" 1 ConnState.connected 40)).streamStates
        "s1").map (·.status) = some LiveStreamStatus.live :=
  ⟨Reachable.step _ (Reachable.step _ (Reachable.step _
      (Reachable.step _ Reachable.init))),
    by decide, by decide, by decide⟩

/-- Claim C2 (amended): a single viewer step moves a session from
non-`live` to `live` only through (a) a track event for that session on
its current peer connection, delivering a first stream with at least one
track, which is then stored; or (b) a `connected` transport-state event
when a stream handle is already stored.  Moreover a `connected` event
while no stream handle is stored leaves the state entirely unchanged. -/
theorem viewer_live_transition_characterization :
    (∀ (s : ViewerState) (e : VEvent) (sid : String),
      ¬ liveAt s sid → liveAt (vstep s e) sid →
      (∃ (pcId : Nat) (ms : MediaStream) (rest : List MediaStream)
          (now : Nat),
        e = VEvent.trackEvt sid pcId (ms :: rest) now ∧
        ms.trackCount ≠ 0 ∧
        (lookupA (vstep s e).streamStates sid).map (·.stream) =
          some (some ms)) ∨
      (∃ (pcId now : Nat) (st : StreamState),
        e = VEvent.connStateEvt sid pcId ConnState.connected now ∧
        lookupA s.streamStates sid = some st ∧ st.stream ≠ none)) ∧
    (∀ (s : ViewerState) (sid : String) (pcId now : Nat),
      (lookupA s.streamStates sid).bind (·.stream) = none →
      vstep s (VEvent.connStateEvt sid pcId ConnState.connected now) = s) := by
  constructor
  · intro s e sid h1 h2
    cases e with
    | setSessionsEvt ss => exact absurd (liveAt_setSessions h2) h1
    | reconcileEvt => exact absurd (liveAt_reconcile h2) h1
    | offerReceivedEvt examId sender studentId negf =>
        exact absurd (liveAt_onOfferReceived h2) h1
    | trackEvt sid' pcId streams now =>
        cases h3 : lookupA s.peers sid' with
        | none =>
            rw [show vstep s (VEvent.trackEvt sid' pcId streams now) = s from
              by simp [vstep, onTrackEvent, h3]] at h2
            exact absurd h2 h1
        | some info =>
            by_cases h4 : info.pcId = pcId
            · cases streams with
              | nil =>
                  rw [show vstep s (VEvent.trackEvt sid' pcId [] now) = s from
                    by simp [vstep, onTrackEvent, h3, h4]] at h2
                  exact absurd h2 h1
              | cons ms rest =>
                  by_cases h5 : ms.trackCount = 0
                  · rw [show vstep s
                        (VEvent.trackEvt sid' pcId (ms :: rest) now) = s from
                      by simp [vstep, onTrackEvent, h3, h4, h5]] at h2
                    exact absurd h2 h1
                  · have hres : vstep s
                        (VEvent.trackEvt sid' pcId (ms :: rest) now) =
                        { s with
                          streamStates := insertA s.streamStates sid'
                            { status := LiveStreamStatus.live
                              stream := some ms
                              lastUpdated := some now
                              error := none
                              remoteSocketId := some info.remoteSocketId } } :=
                      by simp [vstep, onTrackEvent, h3, h4, h5]
                    by_cases h6 : sid' = sid
                    · subst h6
                      refine Or.inl ⟨pcId, ms, rest, now, rfl, h5, ?_⟩
                      rw [hres]
                      dsimp only
                      rw [lookupA_insertA_self]
                      rfl
                    · rw [hres] at h2
                      exact absurd (liveAt_record_insert h6 h2) h1
            · rw [show vstep s (VEvent.trackEvt sid' pcId streams now) = s
                  from by simp [vstep, onTrackEvent, h3, h4]] at h2
              exact absurd h2 h1
    | connStateEvt sid' pcId cs now =>
        cases h3 : lookupA s.peers sid' with
        | none =>
            rw [show vstep s (VEvent.connStateEvt sid' pcId cs now) = s from
              by simp [vstep, onConnStateChange, h3]] at h2
            exact absurd h2 h1
        | some info =>
            by_cases h4 : info.pcId = pcId
            · cases cs with
              | failed =>
                  rw [show vstep s
                      (VEvent.connStateEvt sid' pcId ConnState.failed now) =
                      stopStream s sid' LiveStreamStatus.error
                        (some "Không thể thiết lập kết nối video") from
                    by simp [vstep, onConnStateChange, h3, h4]] at h2
                  exact absurd (liveAt_stopStream (by decide) h2) h1
              | disconnected =>
                  rw [show vstep s
                      (VEvent.connStateEvt sid' pcId ConnState.disconnected
                        now) =
                      stopStream s sid' LiveStreamStatus.error
                        (some "Kết nối video đã bị gián đoạn") from
                    by simp [vstep, onConnStateChange, h3, h4]] at h2
                  exact absurd (liveAt_stopStream (by decide) h2) h1
              | closed =>
                  rw [show vstep s
                      (VEvent.connStateEvt sid' pcId ConnState.closed now) =
                      stopStream s sid' LiveStreamStatus.idle none from
                    by simp [vstep, onConnStateChange, h3, h4]] at h2
                  exact absurd (liveAt_stopStream (by decide) h2) h1
              | connected =>
                  cases h7 : lookupA s.streamStates sid' with
                  | none =>
                      rw [show vstep s
                          (VEvent.connStateEvt sid' pcId ConnState.connected
                            now) = s from
                        by simp [vstep, onConnStateChange, h3, h4, h7]] at h2
                      exact absurd h2 h1
                  | some cst =>
                      by_cases h8 : cst.status ≠ LiveStreamStatus.live ∧
                          cst.stream ≠ none
                      · have hres : vstep s
                            (VEvent.connStateEvt sid' pcId
                              ConnState.connected now) =
                            { s with
                              streamStates := insertA s.streamStates sid'
                                { cst with
                                  status := LiveStreamStatus.live
                                  lastUpdated := some now } } := by
                          simp only [vstep]
                          unfold onConnStateChange
                          simp only [h3, h4, if_true, h7]
                          rw [if_pos h8]
                        by_cases h6 : sid' = sid
                        · subst h6
                          exact Or.inr ⟨pcId, now, cst, rfl, h7, h8.2⟩
                        · rw [hres] at h2
                          exact absurd (liveAt_record_insert h6 h2) h1
                      · rw [show vstep s
                            (VEvent.connStateEvt sid' pcId
                              ConnState.connected now) = s from by
                          simp only [vstep]
                          unfold onConnStateChange
                          simp only [h3, h4, if_true, h7]
                          rw [if_neg h8]] at h2
                        exact absurd h2 h1
              | newConn =>
                  rw [show vstep s
                      (VEvent.connStateEvt sid' pcId ConnState.newConn now) =
                      s from by simp [vstep, onConnStateChange, h3, h4]] at h2
                  exact absurd h2 h1
              | connecting =>
                  rw [show vstep s
                      (VEvent.connStateEvt sid' pcId ConnState.connecting
                        now) = s from
                    by simp [vstep, onConnStateChange, h3, h4]] at h2
                  exact absurd h2 h1
            · rw [show vstep s (VEvent.connStateEvt sid' pcId cs now) = s from
                by simp [vstep, onConnStateChange, h3, h4]] at h2
              exact absurd h2 h1
    | localIceEvt sid' pcId cand =>
        have hmov : liveAt (onLocalIceCandidate s sid' pcId cand) sid →
            liveAt s sid := by
          unfold liveAt
          rw [onLocalIceCandidate_streamStates]
          exact id
        exact absurd (hmov h2) h1
    | remoteIceEvt sender cand applyOk =>
        have hmov : liveAt (onIceCandidateReceived s sender cand applyOk)
            sid → liveAt s sid := by
          unfold liveAt
          rw [onIceCandidateReceived_streamStates]
          exact id
        exact absurd (hmov h2) h1
    | requestStreamEvt sid' force => exact absurd (liveAt_requestStream h2) h1
    | stopStreamEvt sid' => exact absurd (liveAt_stopStream (by decide) h2) h1
    | disconnectEvt examId =>
        exact absurd (liveAt_stopFold (by decide) _ _ h2) h1
    | reconnectFailedEvt examId =>
        exact absurd (liveAt_stopFold (by decide) _ _ h2) h1
    | userLeftEvt examId userId =>
        exact absurd (liveAt_stopFold (by decide) _ _ h2) h1
  · intro s sid pcId now hnone
    show onConnStateChange s sid pcId ConnState.connected now = s
    unfold onConnStateChange
    cases h3 : lookupA s.peers sid with
    | none => rfl
    | some info =>
        by_cases h4 : info.pcId = pcId
        · cases h7 : lookupA s.streamStates sid with
          | none => simp [h3, h4, h7]
          | some cst =>
              have hcs : cst.stream = none := by
                rw [h7] at hnone
                simpa using hnone
              simp [h3, h4, h7, hcs]
        · simp [h3, h4]

theorem viewer_live_transition_characterization_witness :
    (¬ liveAt cexMid "s1") ∧
    liveAt (vstep cexMid (VEvent.trackEvt "s1" 0 [⟨7, 2⟩] 10)) "s1" ∧
    ((∃ (pcId : Nat) (ms : MediaStream) (rest : List MediaStream)
        (now : Nat),
      VEvent.trackEvt "s1" 0 [⟨7, 2⟩] 10 =
        VEvent.trackEvt "s1" pcId (ms :: rest) now ∧
      ms.trackCount ≠ 0 ∧
      (lookupA (vstep cexMid
          (VEvent.trackEvt "s1" 0 [⟨7, 2⟩] 10)).streamStates "s1").map
          (·.stream) =
        some (some ms)) ∨
    (∃ (pcId now : Nat) (st : StreamState),
      VEvent.trackEvt "s1" 0 [⟨7, 2⟩] 10 =
        VEvent.connStateEvt "s1" pcId ConnState.connected now ∧
      lookupA cexMid.streamStates "s1" = some st ∧ st.stream ≠ none)) ∧
    (lookupA c3State.streamStates "s1").bind (·.stream) = none ∧
    vstep c3State (VEvent.connStateEvt "s1" 0 ConnState.connected 99) =
      c3State :=
  ⟨by decide, by decide,
    viewer_live_transition_characterization.1 cexMid
      (VEvent.trackEvt "s1" 0 [⟨7, 2⟩] 10) "s1" (by decide) (by decide),
    by decide,
    viewer_live_transition_characterization.2 c3State "s1" 0 99 (by decide)⟩

end Proctoring

